import Mathlib

/-!
# Event waiter threads of libmultipath (`libmultipath/waiter.c`)

A shallow embedding of `alloc_waiter`, `free_waiter`, `stop_waiter_thread`,
`waiteventloop`, `waitevent` and `start_waiter_thread`, followed by theorems
about them.

Modelling conventions

* Pointers are indices into two tables of the state (`mpps` for
  `struct multipath`, `waiters` for `struct event_thread`); `NULL` is `none`.
  A function returns `none` when the C code would dereference a pointer that
  names no object (undefined behaviour), or when the fuel of a `while (1)`
  loop is used up.
* Every call that leaves `waiter.c` (device-mapper, pthread, `condlog`,
  `FREE`, `sleep`, locking) is appended to `State.trace` together with the
  value it returned.  The values returned by the device-mapper calls and by
  `update_multipath` come from an `Env`, whose answers may depend on the whole
  state, the trace so far included.
* `update_multipath` is code of another file: it is an arbitrary function that
  returns its result together with new contents for both tables.
* The `pthread_attr_*` calls act on the local object `attr` and are not
  logged; their outcomes are given by `Outcomes`.
* `FREE` is logged and leaves the cell in its table; `alloc_waiter` always
  takes a fresh address, the length of the table.
* Each function is modelled as run by one thread from entry to return.  What
  other threads do to the tables in the meantime is not modelled, except as
  the effect of `update_multipath`.
* `event_nr` is a C `int`: its increment wraps at 32 bits.
-/

namespace Waiter

/-- Signals named in `waiter.c`. -/
inductive Signal where
  | SIGHUP
  | SIGUSR1
deriving DecidableEq, Repr

/-- The record `struct event_thread` of `waiter.h`.  `event_nr` is a C `int`. -/
structure event_thread where
  thread : Nat
  event_nr : Int
  mapname : String
  vecs : Option Nat
  mpp : Option Nat
deriving DecidableEq, Repr

/-- The two fields of `struct multipath` that `waiter.c` reads or writes. -/
structure multipath where
  «alias» : String
  waiter : Option Nat
deriving DecidableEq, Repr

/-- The local object `pthread_attr_t attr` of `start_waiter_thread`. -/
structure pthread_attr_t where
  stacksize : Nat
  detached : Bool
deriving DecidableEq, Repr

/-- Calls that leave `waiter.c`, with their arguments and returned values. -/
inductive Event where
  | condlog (prio : Nat) (fmt : String) (strs : List String) (ints : List Int)
  | FREE (wp : Nat)
  | pthread_kill (thread : Nat) (sig : Signal)
  | dm_geteventnr (name : String) (ret : Int)
  | dm_task_create (ok : Bool)
  | dm_task_set_name (name : String) (ok : Bool)
  | dm_task_set_event_nr (nr : Int) (ok : Bool)
  | dm_task_no_open_count
  | sigmask_unblock (sigs : List Signal)
  | dm_task_run (ret : Int)
  | sigmask_restore
  | dm_task_destroy
  | lock (vecs : Nat)
  | update_multipath (vecs : Nat) (name : String) (ret : Int)
  | unlock (vecs : Nat)
  | mlockall
  | sleep (secs : Int)
  | pthread_create (attr : pthread_attr_t) (arg : Nat) (tid : Option Nat)
  | pthread_attr_destroy
deriving DecidableEq, Repr

/-- Memory reachable from `waiter.c` and the log of its outside calls. -/
structure State where
  mpps : List multipath
  waiters : List event_thread
  trace : List Event
deriving DecidableEq, Repr

/-- Append one outside call to the log. -/
def State.log (s : State) (e : Event) : State :=
  { s with trace := s.trace ++ [e] }

/-- Overwrite the `struct multipath` at address `i`. -/
def State.set_mpp (s : State) (i : Nat) (m : multipath) : State :=
  { s with mpps := s.mpps.set i m }

/-- Overwrite the `struct event_thread` at address `i`. -/
def State.set_waiter (s : State) (i : Nat) (w : event_thread) : State :=
  { s with waiters := s.waiters.set i w }

/-- The value of `mpp->waiter` for the device at address `d`, when there is one. -/
def monitor_ref (s : State) (d : Nat) : Option Nat :=
  (s.mpps[d]?).bind (fun m => m.waiter)

/-- The value of `wp->mpp` for the handle at address `h`, when there is one. -/
def device_ref (s : State) (h : Nat) : Option Nat :=
  (s.waiters[h]?).bind (fun w => w.mpp)

/-- Platform constants used by `start_waiter_thread`.  `default_stacksize` is
the stack size of a freshly initialised `pthread_attr_t`; `WWID_SIZE` is the
capacity of `mapname` (declared in `structs.h`). -/
structure Platform where
  default_stacksize : Nat
  PTHREAD_STACK_MIN : Nat
  WWID_SIZE : Nat
deriving DecidableEq, Repr

/-- Outcomes of the library calls made by one `start_waiter_thread` call.
`create_tid` is the thread id stored by a successful `pthread_create`. -/
structure Outcomes where
  attr_init_ok : Bool
  getstacksize_ok : Bool
  setstacksize_ok : Bool
  attr_reinit_ok : Bool
  malloc_ok : Bool
  create_tid : Option Nat
deriving DecidableEq, Repr

/-- Answers of the kernel interface and of `update_multipath`. -/
structure Env where
  dm_geteventnr : State → String → Int
  dm_task_create : State → Bool
  dm_task_set_name : State → String → Bool
  dm_task_set_event_nr : State → Int → Bool
  dm_task_run : State → Int
  update_multipath : State → Nat → String → Int × List multipath × List event_thread

/-- The increment of a C `int`, wrapped to 32 bits. -/
def int_incr (x : Int) : Int :=
  (x + 1 + 2 ^ 31) % 2 ^ 32 - 2 ^ 31

/-- The copy `strncpy(dst, src, n)` read back as a string. -/
def strncpy (src : String) (n : Nat) : String :=
  String.mk (src.data.take n)

/-- The function `alloc_waiter`: `MALLOC` followed by `memset`.  When `MALLOC`
returns `NULL` the `memset` writes through the null pointer. -/
def alloc_waiter (malloc_ok : Bool) (s : State) : Option (Option Nat × State) :=
  if malloc_ok then
    some (some s.waiters.length,
      { s with waiters := s.waiters ++ [⟨0, 0, "", none, none⟩] })
  else
    none

/-- The function `free_waiter`. -/
def free_waiter (data : Nat) (s : State) : Option State := do
  let wp ← s.waiters[data]?
  if wp.mpp.isSome then
    pure (s.log (.condlog 3 "%s: waiter not cleared" [wp.mapname] []))
  else
    pure (s.log (.FREE data))

/-- The function `stop_waiter_thread`. -/
def stop_waiter_thread (mpp : Option Nat) (_vecs : Option Nat) (s : State) :
    Option State := do
  let mp ← mpp
  let m ← s.mpps[mp]?
  match m.waiter with
  | none => pure (s.log (.condlog 3 "%s: no waiter thread" [m.alias] []))
  | some wp =>
    let w ← s.waiters[wp]?
    let s1 := s.log (.condlog 2 "%s: stop event checker thread" [w.mapname] [])
    let s2 := s1.set_mpp mp { m with waiter := none }
    let s3 := s2.set_waiter wp { w with mpp := none }
    pure (s3.log (.pthread_kill w.thread .SIGUSR1))

/-- Lines 80-81 of `waiteventloop`: seed `event_nr` from the kernel when it is 0. -/
def waiteventloop_seed (env : Env) (waiter : Nat) (s : State) : Option State := do
  let w ← s.waiters[waiter]?
  if w.event_nr = 0 then
    let n := env.dm_geteventnr s w.mapname
    pure ((s.log (.dm_geteventnr w.mapname n)).set_waiter waiter { w with event_nr := n })
  else
    pure s

/-- Lines 83-104 of `waiteventloop`: build the `DM_DEVICE_WAITEVENT` task.  The
boolean tells whether the task was built; when it is `false` the function has
logged the error and `waiteventloop` returns 1. -/
def waiteventloop_task (env : Env) (waiter : Nat) (s : State) : Option (Bool × State) := do
  let w ← s.waiters[waiter]?
  let created := env.dm_task_create s
  let s1 := s.log (.dm_task_create created)
  if !created then
    pure (false, s1.log (.condlog 0 "%s: devmap event #%i dm_task_create error"
      [w.mapname] [w.event_nr]))
  else
    let named := env.dm_task_set_name s1 w.mapname
    let s2 := s1.log (.dm_task_set_name w.mapname named)
    if !named then
      pure (false, (s2.log (.condlog 0 "%s: devmap event #%i dm_task_set_name error"
        [w.mapname] [w.event_nr])).log .dm_task_destroy)
    else if w.event_nr = 0 then
      pure (true, s2.log .dm_task_no_open_count)
    else
      let numbered := env.dm_task_set_event_nr s2 w.event_nr
      let s3 := s2.log (.dm_task_set_event_nr w.event_nr numbered)
      if !numbered then
        pure (false, (s3.log (.condlog 0 "%s: devmap event #%i dm_task_set_event_nr error"
          [w.mapname] [w.event_nr])).log .dm_task_destroy)
      else
        pure (true, s3.log .dm_task_no_open_count)

/-- Lines 106-115 of `waiteventloop`: unblock the signals, run the task, restore
the mask, destroy the task.  Returns the value of `dm_task_run`. -/
def waiteventloop_wait (env : Env) (s : State) : Int × State :=
  let s1 := s.log (.sigmask_unblock [.SIGHUP, .SIGUSR1])
  let r := env.dm_task_run s1
  (r, ((s1.log (.dm_task_run r)).log .sigmask_restore).log .dm_task_destroy)

/-- Lines 126-143 of `waiteventloop`: one call of `update_multipath` under the
lock of `waiter->vecs`.  Returns the value of `update_multipath`. -/
def waiteventloop_update (env : Env) (waiter : Nat) (s : State) : Option (Int × State) := do
  let w ← s.waiters[waiter]?
  let s1 := s.log (.condlog 3 "%s: devmap event #%i" [w.mapname] [w.event_nr])
  let v ← w.vecs
  let s2 := s1.log (.lock v)
  let u := env.update_multipath s2 v w.mapname
  let s3 : State :=
    { mpps := u.2.1, waiters := u.2.2,
      trace := s2.trace ++ [.update_multipath v w.mapname u.1] }
  pure (u.1, s3.log (.unlock v))

/-- Lines 125-157 of `waiteventloop`: the loop entered after an event.  One unit
of fuel is spent per pass. -/
def waiteventloop_upon_event : Nat → Env → Nat → State → Option (Int × State)
  | 0, _, _, _ => none
  | fuel + 1, env, waiter, s => do
    let (r, s1) ← waiteventloop_update env waiter s
    let w ← s1.waiters[waiter]?
    if r ≠ 0 then
      pure (-1, s1.log (.condlog 2 "%s: event checker exit" [w.mapname] []))
    else
      let event_nr := env.dm_geteventnr s1 w.mapname
      let s2 := s1.log (.dm_geteventnr w.mapname event_nr)
      if w.event_nr = event_nr then
        pure (1, s2)
      else
        waiteventloop_upon_event fuel env waiter
          (s2.set_waiter waiter { w with event_nr := event_nr })

/-- The function `waiteventloop`.  `fuel` bounds the passes of its inner loop. -/
def waiteventloop (fuel : Nat) (env : Env) (waiter : Nat) (s : State) :
    Option (Int × State) := do
  let s1 ← waiteventloop_seed env waiter s
  let (built, s2) ← waiteventloop_task env waiter s1
  if !built then
    pure (1, s2)
  else
    let (r, s3) := waiteventloop_wait env s2
    if r = 0 then
      pure (-1, s3)
    else
      let w ← s3.waiters[waiter]?
      waiteventloop_upon_event fuel env waiter
        (s3.set_waiter waiter { w with event_nr := int_incr w.event_nr })

/-- Lines 171-178 of `waitevent`: call `waiteventloop` until it returns a
negative value, sleeping in between.  One unit of fuel is spent per call. -/
def waitevent_loop : Nat → Env → Nat → State → Option State
  | 0, _, _, _ => none
  | fuel + 1, env, waiter, s => do
    let (r, s1) ← waiteventloop (fuel + 1) env waiter s
    if r < 0 then
      pure s1
    else
      waitevent_loop fuel env waiter (s1.log (.sleep r))

/-- The function `waitevent`, the start routine of a waiter thread.  The
cleanup handler `free_waiter` runs at `pthread_cleanup_pop(1)`. -/
def waitevent (fuel : Nat) (env : Env) (et : Nat) (s : State) : Option State := do
  let s1 ← waitevent_loop fuel env et (s.log .mlockall)
  free_waiter et s1

/-- Result of lines 193-209 of `start_waiter_thread`. -/
inductive AttrResult where
  | init_failed
  | reinit_failed
  | ready (attr : pthread_attr_t)
deriving DecidableEq, Repr

/-- Lines 196-201 of `start_waiter_thread`: the value of `stacksize` that is
compared with `PTHREAD_STACK_MIN`. -/
def start_stacksize (plat : Platform) (o : Outcomes) : Nat :=
  let stacksize := if o.getstacksize_ok then plat.default_stacksize else plat.PTHREAD_STACK_MIN
  if stacksize < 32 * 1024 then 32 * 1024 else stacksize

/-- Lines 193-209 of `start_waiter_thread`: the attributes handed to
`pthread_create`, or the reason why the function left before. -/
def start_attr (plat : Platform) (o : Outcomes) : AttrResult :=
  if !o.attr_init_ok then
    .init_failed
  else
    let stacksize := start_stacksize plat o
    if stacksize > plat.PTHREAD_STACK_MIN then
      if o.setstacksize_ok then
        .ready ⟨stacksize, true⟩
      else if o.attr_reinit_ok then
        .ready ⟨plat.default_stacksize, true⟩
      else
        .reinit_failed
    else
      .ready ⟨plat.default_stacksize, true⟩

/-- The label `out` of `start_waiter_thread`. -/
def start_out (s : State) : Int × State :=
  (1, (s.log .pthread_attr_destroy).log (.condlog 0 "failed to start waiter thread" [] []))

/-- The function `start_waiter_thread`. -/
def start_waiter_thread (plat : Platform) (o : Outcomes) (mpp : Option Nat)
    (vecs : Option Nat) (s : State) : Option (Int × State) :=
  match mpp with
  | none => some (0, s)
  | some mp =>
    match start_attr plat o with
    | .init_failed => some (1, s)
    | .reinit_failed => some (start_out s)
    | .ready attr => do
      let (wp, s1) ← alloc_waiter o.malloc_ok s
      match wp with
      | none => pure (start_out s1)
      | some wp =>
        let m ← s1.mpps[mp]?
        let s2 := s1.set_mpp mp { m with waiter := some wp }
        let w ← s2.waiters[wp]?
        let w1 : event_thread :=
          { w with mapname := strncpy m.alias plat.WWID_SIZE, vecs := vecs, mpp := some mp }
        let s3 := s2.set_waiter wp w1
        let s4 := s3.log (.pthread_create attr wp o.create_tid)
        match o.create_tid with
        | some tid =>
          let s5 := s4.set_waiter wp { w1 with thread := tid }
          pure (0, (s5.log .pthread_attr_destroy).log
            (.condlog 2 "%s: event checker started" [w1.mapname] []))
        | none =>
          let s5 := s4.log (.condlog 0 "%s: cannot create event checker" [w1.mapname] [])
          let s6 ← free_waiter wp s5
          let m6 ← s6.mpps[mp]?
          pure (start_out (s6.set_mpp mp { m6 with waiter := none }))

/-- One call from outside the waiter threads. -/
inductive Op where
  | start (o : Outcomes) (mpp : Nat) (vecs : Option Nat)
  | stop (mpp : Nat) (vecs : Option Nat)
deriving DecidableEq, Repr

/-- Run one call and keep the state it leaves. -/
def step (plat : Platform) (s : State) : Op → Option State
  | .start o mpp vecs => (start_waiter_thread plat o (some mpp) vecs s).map Prod.snd
  | .stop mpp vecs => stop_waiter_thread (some mpp) vecs s

/-- Run a sequence of calls, first to last. -/
def run (plat : Platform) (s : State) : List Op → Option State
  | [] => some s
  | op :: ops => (step plat s op).bind (fun s1 => run plat s1 ops)

/-- The events appended to the log between state `s` and a later state `t`. -/
def new_events (s t : State) : List Event :=
  t.trace.drop s.trace.length

/-- How many times `FREE` was called on the handle at address `wp`. -/
def free_count (wp : Nat) (evs : List Event) : Nat :=
  evs.count (.FREE wp)

/-- The signals delivered with `pthread_kill` in a list of events, in order. -/
def signals_sent : List Event → List (Nat × Signal)
  | [] => []
  | .pthread_kill t sig :: evs => (t, sig) :: signals_sent evs
  | _ :: evs => signals_sent evs

/-- Whether an event takes the lock of the shared table. -/
def Event.is_lock : Event → Bool
  | .lock _ => true
  | _ => false

/-- Whether an event is a call of `update_multipath`. -/
def Event.is_update : Event → Bool
  | .update_multipath _ _ _ => true
  | _ => false

/-- Whether an event is the blocking call `dm_task_run`. -/
def Event.is_wait : Event → Bool
  | .dm_task_run _ => true
  | _ => false

/-- Whether an event is a call of `sleep`. -/
def Event.is_sleep : Event → Bool
  | .sleep _ => true
  | _ => false

/-- Whether an event is a call of `dm_geteventnr`. -/
def Event.is_query : Event → Bool
  | .dm_geteventnr _ _ => true
  | _ => false

/-- An event that is none of: lock, `update_multipath`, `dm_task_run`, `sleep`,
`dm_geteventnr`. -/
def Event.is_plain (e : Event) : Bool :=
  !e.is_lock && !e.is_update && !e.is_wait && !e.is_sleep && !e.is_query

/-- State `t` has the log of `s` followed by events that all satisfy `P`. -/
def Extends (P : Event → Prop) (s t : State) : Prop :=
  ∃ evs, t.trace = s.trace ++ evs ∧ ∀ e ∈ evs, P e

/-- Whether an event is a call of `FREE`. -/
def Event.is_free : Event → Bool
  | .FREE _ => true
  | _ => false

/-- The events that follow the first `update_multipath` call that returned a
non-zero value, when there is such a call. -/
def gone_tail : List Event → Option (List Event)
  | [] => none
  | .update_multipath _ _ r :: evs => if r ≠ 0 then some evs else gone_tail evs
  | _ :: evs => gone_tail evs

/-- An event that is none of: `dm_task_run`, `sleep`, `FREE`. -/
def Event.is_quiet (e : Event) : Bool :=
  !e.is_wait && !e.is_sleep && !e.is_free

/-- An environment where every call succeeds, the wait is interrupted
(`dm_task_run` returns 0) and the kernel reports event number 5. -/
def env_interrupted : Env :=
  { dm_geteventnr := fun _ _ => 5,
    dm_task_create := fun _ => true,
    dm_task_set_name := fun _ _ => true,
    dm_task_set_event_nr := fun _ _ => true,
    dm_task_run := fun _ => 0,
    update_multipath := fun s _ _ => (0, s.mpps, s.waiters) }

/-- An environment where the wait ends with an event and `update_multipath`
returns 1 without touching either table: the handle stays paired. -/
def env_gone_paired : Env :=
  { dm_geteventnr := fun _ _ => 5,
    dm_task_create := fun _ => true,
    dm_task_set_name := fun _ _ => true,
    dm_task_set_event_nr := fun _ _ => true,
    dm_task_run := fun _ => 1,
    update_multipath := fun s _ _ => (1, s.mpps, s.waiters) }

/-- An environment where the wait ends with an event and `update_multipath`
returns 1 after clearing every pairing, as a removal of the map does. -/
def env_gone_unpaired : Env :=
  { dm_geteventnr := fun _ _ => 5,
    dm_task_create := fun _ => true,
    dm_task_set_name := fun _ _ => true,
    dm_task_set_event_nr := fun _ _ => true,
    dm_task_run := fun _ => 1,
    update_multipath := fun s _ _ =>
      (1, s.mpps.map (fun m => { m with waiter := none }),
        s.waiters.map (fun w => { w with mpp := none })) }

/-- A state with one device `mpatha` paired to one handle whose thread is 7. -/
def paired_state : State :=
  { mpps := [⟨"mpatha", some 0⟩],
    waiters := [⟨7, 5, "mpatha", some 0, some 0⟩],
    trace := [] }

/-- The state `paired_state` after a successful `waiteventloop_task`. -/
def paired_state_task : State :=
  (((paired_state.log (.dm_task_create true)).log (.dm_task_set_name "mpatha" true)).log
    (.dm_task_set_event_nr 5 true)).log .dm_task_no_open_count

/-- The state `paired_state` after one reconciliation pass under
`env_gone_unpaired`. -/
def unpaired_after_update : State :=
  { mpps := [⟨"mpatha", none⟩],
    waiters := [⟨7, 5, "mpatha", some 0, none⟩],
    trace := [.condlog 3 "%s: devmap event #%i" ["mpatha"] [5], .lock 0,
      .update_multipath 0 "mpatha" 1, .unlock 0] }

/-- The log of a thread whose first reconciliation returns 1, up to and
including that `update_multipath` call. -/
def gone_trace : List Event :=
  [.mlockall, .dm_task_create true, .dm_task_set_name "mpatha" true,
    .dm_task_set_event_nr 5 true, .dm_task_no_open_count,
    .sigmask_unblock [.SIGHUP, .SIGUSR1], .dm_task_run 1, .sigmask_restore,
    .dm_task_destroy, .condlog 3 "%s: devmap event #%i" ["mpatha"] [6], .lock 0,
    .update_multipath 0 "mpatha" 1]

/-- The state in which `waitevent` ends from `paired_state` under
`env_gone_unpaired`. -/
def unpaired_final : State :=
  { mpps := [⟨"mpatha", none⟩],
    waiters := [⟨7, 6, "mpatha", some 0, none⟩],
    trace := gone_trace ++ [.unlock 0, .condlog 2 "%s: event checker exit" ["mpatha"] [],
      .FREE 0] }

/-- The state in which `waitevent` ends from `paired_state` under
`env_gone_paired`. -/
def paired_final : State :=
  { mpps := [⟨"mpatha", some 0⟩],
    waiters := [⟨7, 6, "mpatha", some 0, some 0⟩],
    trace := gone_trace ++ [.unlock 0, .condlog 2 "%s: event checker exit" ["mpatha"] [],
      .condlog 3 "%s: waiter not cleared" ["mpatha"] []] }

/-- The state `paired_state` after one reconciliation pass in which
`update_multipath` returns 0 and changes nothing. -/
def paired_after_update : State :=
  { paired_state with
    trace := [.condlog 3 "%s: devmap event #%i" ["mpatha"] [5], .lock 0,
      .update_multipath 0 "mpatha" 0, .unlock 0] }

/-- A state after `stop_waiter_thread`: device `mpatha` and its former handle
are unpaired, the handle still belongs to its running thread. -/
def stopped_state : State :=
  { mpps := [⟨"mpatha", none⟩],
    waiters := [⟨7, 5, "mpatha", some 0, none⟩],
    trace := [] }

/-- An environment where the wait ends with an event (`dm_task_run` returns 1),
`update_multipath` returns 0 and changes nothing, and the kernel reports event
number 6. -/
def env_event : Env :=
  { dm_geteventnr := fun _ _ => 6,
    dm_task_create := fun _ => true,
    dm_task_set_name := fun _ _ => true,
    dm_task_set_event_nr := fun _ _ => true,
    dm_task_run := fun _ => 1,
    update_multipath := fun s _ _ => (0, s.mpps, s.waiters) }

/-- The log of one `waiteventloop` call on `stopped_state` under `env_event`. -/
def event_trace : List Event :=
  [.dm_task_create true, .dm_task_set_name "mpatha" true, .dm_task_set_event_nr 5 true,
    .dm_task_no_open_count, .sigmask_unblock [.SIGHUP, .SIGUSR1], .dm_task_run 1,
    .sigmask_restore, .dm_task_destroy, .condlog 3 "%s: devmap event #%i" ["mpatha"] [6],
    .lock 0, .update_multipath 0 "mpatha" 0, .unlock 0, .dm_geteventnr "mpatha" 6]

/-- The state `stopped_state` after one `waiteventloop` call under `env_event`. -/
def stopped_after_loop : State :=
  { mpps := [⟨"mpatha", none⟩],
    waiters := [⟨7, 6, "mpatha", some 0, none⟩],
    trace := event_trace }

/-- An environment where `dm_task_create` fails until the thread has slept
once, and the wait is interrupted. -/
def env_create_fails : Env :=
  { dm_geteventnr := fun _ _ => 5,
    dm_task_create := fun s => s.trace.any Event.is_sleep,
    dm_task_set_name := fun _ _ => true,
    dm_task_set_event_nr := fun _ _ => true,
    dm_task_run := fun _ => 0,
    update_multipath := fun s _ _ => (0, s.mpps, s.waiters) }

/-- The state `paired_state` after a `waiteventloop` call whose
`dm_task_create` failed. -/
def create_failed_state : State :=
  { paired_state with
    trace := [.dm_task_create false,
      .condlog 0 "%s: devmap event #%i dm_task_create error" ["mpatha"] [5]] }

/-- The state in which `waitevent` ends from `paired_state` under
`env_create_fails`. -/
def create_retry_final : State :=
  { paired_state with
    trace := [.mlockall, .dm_task_create false,
      .condlog 0 "%s: devmap event #%i dm_task_create error" ["mpatha"] [5],
      .sleep 1,
      .dm_task_create true, .dm_task_set_name "mpatha" true, .dm_task_set_event_nr 5 true,
      .dm_task_no_open_count, .sigmask_unblock [.SIGHUP, .SIGUSR1], .dm_task_run 0,
      .sigmask_restore, .dm_task_destroy,
      .condlog 3 "%s: waiter not cleared" ["mpatha"] []] }

/-- The state left by a `start_waiter_thread` call on device `d` (record `m`)
that created its thread `tid` with attributes `attr`. -/
def started_state (plat : Platform) (attr : pthread_attr_t) (d : Nat) (m : multipath)
    (vecs : Option Nat) (tid : Nat) (s : State) : State :=
  { mpps := s.mpps.set d { m with waiter := some s.waiters.length },
    waiters := s.waiters ++ [⟨tid, 0, strncpy m.alias plat.WWID_SIZE, vecs, some d⟩],
    trace := s.trace ++ [.pthread_create attr s.waiters.length (some tid),
      .pthread_attr_destroy,
      .condlog 2 "%s: event checker started" [strncpy m.alias plat.WWID_SIZE] []] }

/-- The state left by a `start_waiter_thread` call on device `d` (record `m`)
whose `pthread_create` failed. -/
def create_failure_state (plat : Platform) (attr : pthread_attr_t) (d : Nat) (m : multipath)
    (vecs : Option Nat) (s : State) : State :=
  { mpps := s.mpps.set d { m with waiter := none },
    waiters := s.waiters ++ [⟨0, 0, strncpy m.alias plat.WWID_SIZE, vecs, some d⟩],
    trace := s.trace ++ [.pthread_create attr s.waiters.length none,
      .condlog 0 "%s: cannot create event checker" [strncpy m.alias plat.WWID_SIZE] [],
      .condlog 3 "%s: waiter not cleared" [strncpy m.alias plat.WWID_SIZE] [],
      .pthread_attr_destroy,
      .condlog 0 "failed to start waiter thread" [] []] }

/-- A state with one device `mpatha` and no handle. -/
def unpaired_state : State :=
  { mpps := [⟨"mpatha", none⟩], waiters := [], trace := [] }

/-- A platform whose default stack size and `PTHREAD_STACK_MIN` are 16 KiB. -/
def small_stack_platform : Platform :=
  { default_stacksize := 16384, PTHREAD_STACK_MIN := 16384, WWID_SIZE := 128 }

/-- A platform whose default stack size is 8 MiB. -/
def large_stack_platform : Platform :=
  { default_stacksize := 8388608, PTHREAD_STACK_MIN := 16384, WWID_SIZE := 128 }

/-- All library calls succeed; the new thread gets id 8. -/
def all_succeed : Outcomes :=
  { attr_init_ok := true, getstacksize_ok := true, setstacksize_ok := true,
    attr_reinit_ok := true, malloc_ok := true, create_tid := some 8 }

/-- The call `pthread_attr_setstacksize` fails, the second `pthread_attr_init`
succeeds, and so do the other calls. -/
def setstacksize_fails : Outcomes :=
  { all_succeed with setstacksize_ok := false }

/-- The call `pthread_create` fails, the other calls succeed. -/
def create_fails : Outcomes :=
  { all_succeed with create_tid := none }

/-- Whether no device names a handle and no handle names a device. -/
def all_unpaired (s : State) : Bool :=
  s.mpps.all (fun m => m.waiter.isNone) && s.waiters.all (fun w => w.mpp.isNone)

/-- Whether a call is a stop, or a start on a device whose monitor reference
is absent in state `s` and whose `pthread_create`, if reached, succeeds. -/
def Op.clean (s : State) : Op → Bool
  | .start o mpp _ => (monitor_ref s mpp).isNone && o.create_tid.isSome
  | .stop _ _ => true

/-- Whether every call of a sequence run from `s` is clean in the state in
which it is made. -/
def clean (plat : Platform) : State → List Op → Bool
  | _, [] => true
  | s, op :: ops =>
    op.clean s &&
      match step plat s op with
      | some s1 => clean plat s1 ops
      | none => true

/-- The state `paired_state` after a second successful `start_waiter_thread`
on device 0: a second handle and a second thread. -/
def restarted_state : State :=
  { mpps := [⟨"mpatha", some 1⟩],
    waiters := [⟨7, 5, "mpatha", some 0, some 0⟩, ⟨8, 0, "mpatha", some 0, some 0⟩],
    trace := [.pthread_create ⟨8388608, true⟩ 1 (some 8), .pthread_attr_destroy,
      .condlog 2 "%s: event checker started" ["mpatha"] []] }

/-- The state `unpaired_state` after two successful `start_waiter_thread` calls
on device 0. -/
def twice_started_state : State :=
  { mpps := [⟨"mpatha", some 1⟩],
    waiters := [⟨8, 0, "mpatha", some 0, some 0⟩, ⟨8, 0, "mpatha", some 0, some 0⟩],
    trace := [.pthread_create ⟨8388608, true⟩ 0 (some 8), .pthread_attr_destroy,
      .condlog 2 "%s: event checker started" ["mpatha"] [],
      .pthread_create ⟨8388608, true⟩ 1 (some 8), .pthread_attr_destroy,
      .condlog 2 "%s: event checker started" ["mpatha"] []] }

/-- The state `unpaired_state` after a `start_waiter_thread` call whose
`pthread_create` failed: the new handle keeps its device reference and is not
freed. -/
def leaked_state : State :=
  { mpps := [⟨"mpatha", none⟩],
    waiters := [⟨0, 0, "mpatha", some 0, some 0⟩],
    trace := [.pthread_create ⟨8388608, true⟩ 0 none,
      .condlog 0 "%s: cannot create event checker" ["mpatha"] [],
      .condlog 3 "%s: waiter not cleared" ["mpatha"] [],
      .pthread_attr_destroy,
      .condlog 0 "failed to start waiter thread" [] []] }

/-- The state `unpaired_state` after start, stop and start again on device 0. -/
def started_again_state : State :=
  { mpps := [⟨"mpatha", some 1⟩],
    waiters := [⟨8, 0, "mpatha", some 0, none⟩, ⟨8, 0, "mpatha", some 0, some 0⟩],
    trace := [.pthread_create ⟨8388608, true⟩ 0 (some 8), .pthread_attr_destroy,
      .condlog 2 "%s: event checker started" ["mpatha"] [],
      .condlog 2 "%s: stop event checker thread" ["mpatha"] [],
      .pthread_kill 8 .SIGUSR1,
      .pthread_create ⟨8388608, true⟩ 1 (some 8), .pthread_attr_destroy,
      .condlog 2 "%s: event checker started" ["mpatha"] []] }

/-- The call `MALLOC` returns `NULL`, the other calls succeed. -/
def malloc_fails : Outcomes :=
  { all_succeed with malloc_ok := false }

/-! ## Lemmas on the state -/

theorem new_events_append (s t : State) (evs : List Event)
    (h : t.trace = s.trace ++ evs) : new_events s t = evs := by
  simp [new_events, h]

theorem log_trace (s : State) (e : Event) : (s.log e).trace = s.trace ++ [e] := rfl

theorem Extends.refl (P : Event → Prop) (s : State) : Extends P s s :=
  ⟨[], by simp, by simp⟩

theorem Extends.same {P : Event → Prop} {s t u : State} (h : Extends P s t)
    (hu : u.trace = t.trace) : Extends P s u := by
  obtain ⟨evs, ht, hP⟩ := h
  exact ⟨evs, by rw [hu, ht], hP⟩

theorem Extends.log {P : Event → Prop} {s t : State} (h : Extends P s t) (e : Event)
    (he : P e) : Extends P s (t.log e) := by
  obtain ⟨evs, ht, hP⟩ := h
  refine ⟨evs ++ [e], by simp [State.log, ht], ?_⟩
  intro x hx
  rcases List.mem_append.1 hx with hx | hx
  · exact hP x hx
  · rw [List.mem_singleton.1 hx]; exact he

theorem Extends.trans {P : Event → Prop} {s t u : State} (h1 : Extends P s t)
    (h2 : Extends P t u) : Extends P s u := by
  obtain ⟨e1, ht, hP1⟩ := h1
  obtain ⟨e2, hu, hP2⟩ := h2
  refine ⟨e1 ++ e2, by simp [hu, ht], ?_⟩
  intro x hx
  rcases List.mem_append.1 hx with hx | hx
  · exact hP1 x hx
  · exact hP2 x hx

theorem Extends.mono {P Q : Event → Prop} {s t : State} (h : Extends P s t)
    (hPQ : ∀ e, P e → Q e) : Extends Q s t := by
  obtain ⟨evs, ht, hP⟩ := h
  exact ⟨evs, ht, fun e he => hPQ e (hP e he)⟩

theorem Extends.new_events {P : Event → Prop} {s t : State} (h : Extends P s t) :
    ∀ e ∈ new_events s t, P e := by
  obtain ⟨evs, ht, hP⟩ := h
  rw [new_events_append s t evs ht]
  exact hP

/-- The seeding step leaves the devices alone and logs only `dm_geteventnr`. -/
theorem waiteventloop_seed_frame (env : Env) (w : Nat) (s s1 : State)
    (h : waiteventloop_seed env w s = some s1) :
    s1.mpps = s.mpps ∧ Extends (fun e => e.is_query = true) s s1 := by
  unfold waiteventloop_seed at h
  cases hw : s.waiters[w]? with
  | none => simp [hw] at h
  | some wt =>
    simp only [hw, Option.bind_eq_bind, Option.some_bind] at h
    split at h
    · simp only [Option.pure_def, Option.some.injEq] at h
      subst h
      refine ⟨rfl, Extends.same (Extends.log (Extends.refl _ s)
        (.dm_geteventnr wt.mapname (env.dm_geteventnr s wt.mapname)) rfl) rfl⟩
    · simp only [Option.pure_def, Option.some.injEq] at h
      subst h
      exact ⟨rfl, Extends.refl _ _⟩

/-- Building the wait task changes neither table and logs only plain events. -/
theorem waiteventloop_task_frame (env : Env) (w : Nat) (s s1 : State) (b : Bool)
    (h : waiteventloop_task env w s = some (b, s1)) :
    s1.mpps = s.mpps ∧ s1.waiters = s.waiters ∧
    Extends (fun e => e.is_plain = true) s s1 := by
  unfold waiteventloop_task at h
  cases hw : s.waiters[w]? with
  | none => simp [hw] at h
  | some wt =>
    simp only [hw, Option.bind_eq_bind, Option.some_bind] at h
    split at h
    · simp only [Option.pure_def, Option.some.injEq, Prod.mk.injEq] at h
      obtain ⟨-, rfl⟩ := h
      refine ⟨rfl, rfl, ?_⟩
      repeat (first | exact Extends.refl _ _ | refine Extends.log ?_ _ rfl)
    · split at h
      · simp only [Option.pure_def, Option.some.injEq, Prod.mk.injEq] at h
        obtain ⟨-, rfl⟩ := h
        refine ⟨rfl, rfl, ?_⟩
        repeat (first | exact Extends.refl _ _ | refine Extends.log ?_ _ rfl)
      · split at h
        · simp only [Option.pure_def, Option.some.injEq, Prod.mk.injEq] at h
          obtain ⟨-, rfl⟩ := h
          refine ⟨rfl, rfl, ?_⟩
          repeat (first | exact Extends.refl _ _ | refine Extends.log ?_ _ rfl)
        · split at h
          · simp only [Option.pure_def, Option.some.injEq, Prod.mk.injEq] at h
            obtain ⟨-, rfl⟩ := h
            refine ⟨rfl, rfl, ?_⟩
            repeat (first | exact Extends.refl _ _ | refine Extends.log ?_ _ rfl)
          · simp only [Option.pure_def, Option.some.injEq, Prod.mk.injEq] at h
            obtain ⟨-, rfl⟩ := h
            refine ⟨rfl, rfl, ?_⟩
            repeat (first | exact Extends.refl _ _ | refine Extends.log ?_ _ rfl)

theorem gone_tail_append (a b : List Event) :
    gone_tail (a ++ b) =
      match gone_tail a with
      | some t => some (t ++ b)
      | none => gone_tail b := by
  induction a with
  | nil => simp [gone_tail]
  | cons e a ih =>
    cases e <;> simp only [List.cons_append, gone_tail] <;> try exact ih
    split
    · rfl
    · exact ih

/-- One reconciliation pass logs `condlog`, lock, `update_multipath`, unlock. -/
theorem waiteventloop_update_trace (env : Env) (w : Nat) (s s1 : State) (r : Int)
    (h : waiteventloop_update env w s = some (r, s1)) :
    ∃ wt v, s.waiters[w]? = some wt ∧ wt.vecs = some v ∧
      s1.trace = s.trace ++ [.condlog 3 "%s: devmap event #%i" [wt.mapname] [wt.event_nr],
        .lock v, .update_multipath v wt.mapname r, .unlock v] := by
  unfold waiteventloop_update at h
  cases hw : s.waiters[w]? with
  | none => simp [hw] at h
  | some wt =>
    cases hv : wt.vecs with
    | none => simp [hw, hv] at h
    | some v =>
      simp only [hw, hv, Option.bind_eq_bind, Option.some_bind, Option.pure_def,
        Option.some.injEq, Prod.mk.injEq] at h
      obtain ⟨rfl, rfl⟩ := h
      exact ⟨wt, v, rfl, hv, by simp [State.log]⟩

/-- The log of the loop entered after an event: no `dm_task_run`, no `sleep`, no
`FREE`; the result is 1 when no `update_multipath` returned non-zero, and -1 when
one did, in which case only the unlock and one `condlog` follow it. -/
theorem waiteventloop_upon_event_shape (fuel : Nat) (env : Env) (w : Nat) :
    ∀ (s s' : State) (r : Int), waiteventloop_upon_event fuel env w s = some (r, s') →
    ∃ evs, s'.trace = s.trace ++ evs ∧ (∀ e ∈ evs, e.is_quiet = true) ∧
      ((r = 1 ∧ gone_tail evs = none) ∨
       (r = -1 ∧ ∃ v name, gone_tail evs =
          some [.unlock v, .condlog 2 "%s: event checker exit" [name] []])) := by
  induction fuel with
  | zero => intro s s' r h; simp [waiteventloop_upon_event] at h
  | succ fuel ih =>
    intro s s' r h
    unfold waiteventloop_upon_event at h
    cases hu : waiteventloop_update env w s with
    | none => simp [hu] at h
    | some p =>
      obtain ⟨r1, s1⟩ := p
      obtain ⟨wt0, v, -, -, ht1⟩ := waiteventloop_update_trace env w s s1 r1 hu
      cases hw : s1.waiters[w]? with
      | none => simp [hu, hw] at h
      | some wt =>
        simp only [hu, hw, Option.bind_eq_bind, Option.some_bind] at h
        split at h
        · rename_i hr
          simp only [Option.pure_def, Option.some.injEq, Prod.mk.injEq] at h
          obtain ⟨rfl, rfl⟩ := h
          refine ⟨_, by simp [State.log, ht1]; rfl, ?_, Or.inr ⟨rfl, v, wt.mapname, ?_⟩⟩
          · intro e he
            simp only [List.mem_cons, List.mem_singleton, List.not_mem_nil, or_false] at he
            rcases he with rfl | rfl | rfl | rfl | rfl <;> rfl
          · simp [gone_tail, hr]
        · rename_i hr
          have hr0 : r1 = 0 := by simpa using hr
          split at h
          · simp only [Option.pure_def, Option.some.injEq, Prod.mk.injEq] at h
            obtain ⟨rfl, rfl⟩ := h
            refine ⟨_, by simp [State.log, ht1]; rfl, ?_, Or.inl ⟨rfl, ?_⟩⟩
            · intro e he
              simp only [List.mem_cons, List.mem_singleton, List.not_mem_nil, or_false] at he
              rcases he with rfl | rfl | rfl | rfl | rfl <;> rfl
            · simp [gone_tail, hr0]
          · obtain ⟨evs, ht, hq, hg⟩ := ih _ _ _ h
            refine ⟨[.condlog 3 "%s: devmap event #%i" [wt0.mapname] [wt0.event_nr],
              .lock v, .update_multipath v wt0.mapname r1, .unlock v,
              .dm_geteventnr wt.mapname (env.dm_geteventnr s1 wt.mapname)] ++ evs, ?_, ?_, ?_⟩
            · rw [ht]; simp [State.log, State.set_waiter, ht1]
            · intro e he
              rcases List.mem_append.1 he with he | he
              · simp only [List.mem_cons, List.mem_singleton, List.not_mem_nil,
                  or_false] at he
                rcases he with rfl | rfl | rfl | rfl | rfl <;> rfl
              · exact hq e he
            · rw [gone_tail_append]
              simpa [gone_tail, hr0] using hg

theorem gone_tail_eq_none (evs : List Event) (h : ∀ e ∈ evs, e.is_update = false) :
    gone_tail evs = none := by
  induction evs with
  | nil => rfl
  | cons e evs ih =>
    have he := h e (List.mem_cons_self _ _)
    have ht := ih (fun x hx => h x (List.mem_cons_of_mem _ hx))
    cases e <;> simp_all [gone_tail, Event.is_update]

theorem is_update_of_is_query (e : Event) (h : e.is_query = true) :
    e.is_update = false ∧ e.is_wait = false ∧ e.is_sleep = false ∧ e.is_free = false := by
  cases e <;> simp_all [Event.is_query, Event.is_update, Event.is_wait, Event.is_sleep,
    Event.is_free]

theorem is_update_of_is_plain (e : Event) (h : e.is_plain = true) :
    e.is_update = false ∧ e.is_wait = false ∧ e.is_sleep = false := by
  cases e <;> simp_all [Event.is_plain, Event.is_update, Event.is_wait, Event.is_sleep,
    Event.is_lock, Event.is_query]

/-- Building the wait task never logs `FREE`. -/
theorem waiteventloop_task_no_free (env : Env) (w : Nat) (s s1 : State) (b : Bool)
    (h : waiteventloop_task env w s = some (b, s1)) :
    Extends (fun e => e.is_free = false) s s1 := by
  unfold waiteventloop_task at h
  cases hw : s.waiters[w]? with
  | none => simp [hw] at h
  | some wt =>
    simp only [hw, Option.bind_eq_bind, Option.some_bind] at h
    repeat' split at h
    all_goals
      simp only [Option.pure_def, Option.some.injEq, Prod.mk.injEq] at h
      obtain ⟨-, rfl⟩ := h
      repeat (first | exact Extends.refl _ _ | refine Extends.log ?_ _ rfl)

/-- The log of one `waiteventloop` call: no `sleep`, no `FREE`.  The result is 1
or -1; it is -1 exactly when the wait was interrupted or an `update_multipath`
call returned non-zero, and in the second case only the unlock and one
`condlog` follow that call. -/
theorem waiteventloop_shape (fuel : Nat) (env : Env) (w : Nat) (s s' : State) (r : Int)
    (h : waiteventloop fuel env w s = some (r, s')) :
    ∃ evs, s'.trace = s.trace ++ evs ∧
      (∀ e ∈ evs, e.is_sleep = false ∧ e.is_free = false) ∧
      ((r = 1 ∧ gone_tail evs = none ∧ Event.dm_task_run 0 ∉ evs) ∨
       (r = -1 ∧ gone_tail evs = none ∧ Event.dm_task_run 0 ∈ evs) ∨
       (r = -1 ∧ Event.dm_task_run 0 ∉ evs ∧ ∃ v name, gone_tail evs =
          some [.unlock v, .condlog 2 "%s: event checker exit" [name] []])) := by
  unfold waiteventloop at h
  cases hs : waiteventloop_seed env w s with
  | none => simp [hs] at h
  | some s1 =>
    obtain ⟨-, e1, ht1, hq1⟩ := waiteventloop_seed_frame env w s s1 hs
    cases hk : waiteventloop_task env w s1 with
    | none => simp [hs, hk] at h
    | some p =>
      obtain ⟨built, s2⟩ := p
      obtain ⟨-, -, e2, ht2, hq2⟩ := waiteventloop_task_frame env w s1 s2 built hk
      obtain ⟨e2', ht2', hf2⟩ := waiteventloop_task_no_free env w s1 s2 built hk
      have he2 : e2' = e2 := List.append_cancel_left (ht2'.symm.trans ht2)
      subst he2
      have h12 : ∀ e ∈ e1 ++ e2', e.is_update = false ∧ e.is_wait = false ∧
          e.is_sleep = false ∧ e.is_free = false := by
        intro e he
        rcases List.mem_append.1 he with he | he
        · exact is_update_of_is_query e (hq1 e he)
        · have := is_update_of_is_plain e (hq2 e he)
          exact ⟨this.1, this.2.1, this.2.2, hf2 e he⟩
      have hg12 : gone_tail (e1 ++ e2') = none :=
        gone_tail_eq_none _ (fun e he => (h12 e he).1)
      have hn12 : ∀ x : Int, Event.dm_task_run x ∉ e1 ++ e2' := by
        intro x hx
        have := (h12 _ hx).2.1
        simp [Event.is_wait] at this
      simp only [hs, hk, Option.bind_eq_bind, Option.some_bind] at h
      split at h
      · simp only [Option.pure_def, Option.some.injEq, Prod.mk.injEq] at h
        obtain ⟨rfl, rfl⟩ := h
        exact ⟨e1 ++ e2', by simp [ht2, ht1], fun e he => ⟨(h12 e he).2.2.1, (h12 e he).2.2.2⟩,
          Or.inl ⟨rfl, hg12, hn12 0⟩⟩
      · simp only [waiteventloop_wait] at h
        split at h
        · rename_i hr
          simp only [Option.pure_def, Option.some.injEq, Prod.mk.injEq] at h
          obtain ⟨rfl, rfl⟩ := h
          refine ⟨(e1 ++ e2') ++ [.sigmask_unblock [.SIGHUP, .SIGUSR1], .dm_task_run 0,
            .sigmask_restore, .dm_task_destroy], by rw [hr]; simp [State.log, ht2, ht1], ?_,
            Or.inr (Or.inl ⟨rfl, ?_, by simp⟩)⟩
          · intro e he
            rcases List.mem_append.1 he with he | he
            · exact ⟨(h12 e he).2.2.1, (h12 e he).2.2.2⟩
            · simp only [List.mem_cons, List.mem_singleton, List.not_mem_nil, or_false] at he
              rcases he with rfl | rfl | rfl | rfl <;> exact ⟨rfl, rfl⟩
          · rw [gone_tail_append, hg12]; rfl
        · rename_i hr
          cases hw : (s2.log (.sigmask_unblock [.SIGHUP, .SIGUSR1])).waiters[w]? with
          | none =>
            simp only [State.log] at hw
            simp [State.log, hw] at h
          | some wt =>
            simp only [State.log] at hw
            simp only [State.log, hw, Option.some_bind] at h
            obtain ⟨e3, ht3, hq3, hg3⟩ := waiteventloop_upon_event_shape fuel env w _ _ _ h
            refine ⟨(e1 ++ e2') ++ ([.sigmask_unblock [.SIGHUP, .SIGUSR1],
              .dm_task_run (env.dm_task_run (s2.log (.sigmask_unblock [.SIGHUP, .SIGUSR1]))),
              .sigmask_restore, .dm_task_destroy] ++ e3), ?_, ?_, ?_⟩
            · rw [ht3]; simp [State.log, State.set_waiter, ht2, ht1]
            · intro e he
              rcases List.mem_append.1 he with he | he
              · exact ⟨(h12 e he).2.2.1, (h12 e he).2.2.2⟩
              · rcases List.mem_append.1 he with he | he
                · simp only [List.mem_cons, List.mem_singleton, List.not_mem_nil,
                    or_false] at he
                  rcases he with rfl | rfl | rfl | rfl <;> exact ⟨rfl, rfl⟩
                · have := hq3 e he
                  cases e <;> simp_all [Event.is_quiet, Event.is_wait, Event.is_sleep,
                    Event.is_free]
            · have hno : Event.dm_task_run 0 ∉ (e1 ++ e2') ++
                  ([.sigmask_unblock [.SIGHUP, .SIGUSR1],
                    .dm_task_run (env.dm_task_run (s2.log (.sigmask_unblock [.SIGHUP, .SIGUSR1]))),
                    .sigmask_restore, .dm_task_destroy] ++ e3) := by
                intro hx
                rcases List.mem_append.1 hx with hx | hx
                · exact hn12 0 hx
                · rcases List.mem_append.1 hx with hx | hx
                  · simp only [List.mem_cons, List.mem_singleton, List.not_mem_nil,
                      or_false] at hx
                    rcases hx with hx | hx | hx | hx
                    · cases hx
                    · injection hx with hx
                      exact hr hx.symm
                    · cases hx
                    · cases hx
                  · have := hq3 _ hx
                    simp [Event.is_quiet, Event.is_wait] at this
              have hgt : gone_tail ((e1 ++ e2') ++ ([.sigmask_unblock [.SIGHUP, .SIGUSR1],
                  .dm_task_run (env.dm_task_run (s2.log (.sigmask_unblock [.SIGHUP, .SIGUSR1]))),
                  .sigmask_restore, .dm_task_destroy] ++ e3)) = gone_tail e3 := by
                rw [gone_tail_append, hg12]
                rfl
              rcases hg3 with ⟨hr1, hg⟩ | ⟨hr1, v, name, hg⟩
              · exact Or.inl ⟨hr1, by rw [hgt, hg], hno⟩
              · exact Or.inr (Or.inr ⟨hr1, hno, v, name, by rw [hgt, hg]⟩)

/-- The log of the loop of `waitevent`: no `FREE`; when an `update_multipath`
call returned non-zero, only the unlock and one `condlog` follow it. -/
theorem waitevent_loop_shape (fuel : Nat) (env : Env) (w : Nat) :
    ∀ (s s' : State), waitevent_loop fuel env w s = some s' →
    ∃ evs, s'.trace = s.trace ++ evs ∧ (∀ e ∈ evs, e.is_free = false) ∧
      (gone_tail evs = none ∨ ∃ v name, gone_tail evs =
        some [.unlock v, .condlog 2 "%s: event checker exit" [name] []]) := by
  induction fuel with
  | zero => intro s s' h; simp [waitevent_loop] at h
  | succ fuel ih =>
    intro s s' h
    unfold waitevent_loop at h
    cases hl : waiteventloop (fuel + 1) env w s with
    | none => simp [hl] at h
    | some p =>
      obtain ⟨r, s1⟩ := p
      obtain ⟨e1, ht1, hq1, hc1⟩ := waiteventloop_shape (fuel + 1) env w s s1 r hl
      simp only [hl, Option.bind_eq_bind, Option.some_bind] at h
      split at h
      · rename_i hr
        simp only [Option.pure_def, Option.some.injEq] at h
        subst h
        refine ⟨e1, ht1, fun e he => (hq1 e he).2, ?_⟩
        rcases hc1 with ⟨h1, -, -⟩ | ⟨-, hg, -⟩ | ⟨-, -, hg⟩
        · omega
        · exact Or.inl hg
        · exact Or.inr hg
      · rename_i hr
        obtain ⟨e2, ht2, hq2, hc2⟩ := ih _ _ h
        have hg1 : gone_tail e1 = none := by
          rcases hc1 with ⟨-, hg, -⟩ | ⟨h1, -, -⟩ | ⟨h1, -, -⟩
          · exact hg
          · omega
          · omega
        refine ⟨e1 ++ ([.sleep r] ++ e2), by rw [ht2]; simp [State.log, ht1], ?_, ?_⟩
        · intro e he
          rcases List.mem_append.1 he with he | he
          · exact (hq1 e he).2
          · rcases List.mem_append.1 he with he | he
            · rw [List.mem_singleton.1 he]; rfl
            · exact hq2 e he
        · rw [gone_tail_append, hg1]
          exact hc2

theorem free_count_eq_zero (w : Nat) (evs : List Event) (h : ∀ e ∈ evs, e.is_free = false) :
    free_count w evs = 0 := by
  unfold free_count
  rw [List.count_eq_zero]
  intro hm
  have := h _ hm
  simp [Event.is_free] at this

/-- A `start_waiter_thread` call whose library calls all succeed. -/
theorem start_waiter_thread_started (plat : Platform) (o : Outcomes) (d : Nat)
    (vecs : Option Nat) (s : State) (m : multipath) (attr : pthread_attr_t) (tid : Nat)
    (ha : start_attr plat o = .ready attr) (hmalloc : o.malloc_ok = true)
    (hm : s.mpps[d]? = some m) (hc : o.create_tid = some tid) :
    start_waiter_thread plat o (some d) vecs s =
      some (0, started_state plat attr d m vecs tid s) := by
  have hd : d < s.mpps.length := by
    rcases Nat.lt_or_ge d s.mpps.length with hlt | hge
    · exact hlt
    · rw [List.getElem?_eq_none hge] at hm; cases hm
  simp [start_waiter_thread, ha, hmalloc, alloc_waiter, hm, hc, State.set_mpp,
    State.set_waiter, State.log, started_state]

/-- A `start_waiter_thread` call whose `pthread_create` fails. -/
theorem start_waiter_thread_create_failure (plat : Platform) (o : Outcomes) (d : Nat)
    (vecs : Option Nat) (s : State) (m : multipath) (attr : pthread_attr_t)
    (ha : start_attr plat o = .ready attr) (hmalloc : o.malloc_ok = true)
    (hm : s.mpps[d]? = some m) (hc : o.create_tid = none) :
    start_waiter_thread plat o (some d) vecs s =
      some (1, create_failure_state plat attr d m vecs s) := by
  have hd : d < s.mpps.length := by
    rcases Nat.lt_or_ge d s.mpps.length with hlt | hge
    · exact hlt
    · rw [List.getElem?_eq_none hge] at hm; cases hm
  simp [start_waiter_thread, ha, hmalloc, alloc_waiter, hm, hc, State.set_mpp,
    State.set_waiter, State.log, create_failure_state, free_waiter, start_out, hd]

/-- Every way a `start_waiter_thread` call on a device can return. -/
theorem start_waiter_thread_cases (plat : Platform) (o : Outcomes) (d : Nat)
    (vecs : Option Nat) (s s' : State) (r : Int)
    (h : start_waiter_thread plat o (some d) vecs s = some (r, s')) :
    (r = 1 ∧ s'.mpps = s.mpps ∧ s'.waiters = s.waiters ∧
      Extends (fun e => ∀ a x t, e ≠ .pthread_create a x t) s s') ∨
    (∃ m attr tid, s.mpps[d]? = some m ∧ start_attr plat o = .ready attr ∧
      o.create_tid = some tid ∧ r = 0 ∧ s' = started_state plat attr d m vecs tid s) ∨
    (∃ m attr, s.mpps[d]? = some m ∧ start_attr plat o = .ready attr ∧
      o.create_tid = none ∧ r = 1 ∧ s' = create_failure_state plat attr d m vecs s) := by
  cases ha : start_attr plat o with
  | init_failed =>
    simp only [start_waiter_thread, ha, Option.some.injEq, Prod.mk.injEq] at h
    obtain ⟨rfl, rfl⟩ := h
    exact Or.inl ⟨rfl, rfl, rfl, Extends.refl _ _⟩
  | reinit_failed =>
    simp only [start_waiter_thread, ha, start_out, Option.some.injEq, Prod.mk.injEq] at h
    obtain ⟨rfl, rfl⟩ := h
    refine Or.inl ⟨rfl, rfl, rfl, ?_⟩
    repeat (first | exact Extends.refl _ _ | refine Extends.log ?_ _ (by intro a x t hh; cases hh))
  | ready attr =>
    cases hmalloc : o.malloc_ok with
    | false => simp [start_waiter_thread, ha, hmalloc, alloc_waiter] at h
    | true =>
      cases hm : s.mpps[d]? with
      | none => simp [start_waiter_thread, ha, hmalloc, alloc_waiter, hm] at h
      | some m =>
        cases hc : o.create_tid with
        | none =>
          rw [start_waiter_thread_create_failure plat o d vecs s m attr ha hmalloc hm hc] at h
          simp only [Option.some.injEq, Prod.mk.injEq] at h
          exact Or.inr (Or.inr ⟨m, attr, rfl, rfl, rfl, h.1.symm, h.2.symm⟩)
        | some tid =>
          rw [start_waiter_thread_started plat o d vecs s m attr tid ha hmalloc hm hc] at h
          simp only [Option.some.injEq, Prod.mk.injEq] at h
          exact Or.inr (Or.inl ⟨m, attr, tid, rfl, rfl, rfl, h.1.symm, h.2.symm⟩)

/-- The attributes logged by `pthread_create` are those of `start_attr`. -/
theorem start_waiter_thread_attr (plat : Platform) (o : Outcomes) (d : Nat)
    (vecs : Option Nat) (s s' : State) (r : Int) (attr : pthread_attr_t) (arg : Nat)
    (tid : Option Nat)
    (h : start_waiter_thread plat o (some d) vecs s = some (r, s'))
    (hev : Event.pthread_create attr arg tid ∈ new_events s s') :
    start_attr plat o = .ready attr := by
  rcases start_waiter_thread_cases plat o d vecs s s' r h with
    ⟨-, -, -, hx⟩ | ⟨m, a, t, -, ha, -, -, rfl⟩ | ⟨m, a, -, ha, -, -, rfl⟩
  · exact absurd rfl (hx.new_events _ hev attr arg tid)
  · rw [new_events_append s _ _ rfl] at hev
    simp only [List.mem_cons, Event.pthread_create.injEq, List.mem_singleton,
      List.not_mem_nil, or_false, reduceCtorEq] at hev
    rw [ha, hev.1]
  · rw [new_events_append s _ _ rfl] at hev
    simp only [List.mem_cons, Event.pthread_create.injEq, List.mem_singleton,
      List.not_mem_nil, or_false, reduceCtorEq] at hev
    rw [ha, hev.1]

theorem monitor_ref_set (s s' : State) (d d' : Nat) (m : multipath)
    (hm : s'.mpps = s.mpps.set d m) (hd : d < s.mpps.length) :
    monitor_ref s' d' = if d' = d then m.waiter else monitor_ref s d' := by
  unfold monitor_ref
  rw [hm]
  split
  · rename_i h
    subst h
    simp [hd]
  · rename_i h
    rw [List.getElem?_set_ne (Ne.symm h)]

theorem device_ref_set (s s' : State) (h h' : Nat) (w : event_thread)
    (hw : s'.waiters = s.waiters.set h w) (hh : h < s.waiters.length) :
    device_ref s' h' = if h' = h then w.mpp else device_ref s h' := by
  unfold device_ref
  rw [hw]
  split
  · rename_i e
    subst e
    simp [hh]
  · rename_i e
    rw [List.getElem?_set_ne (Ne.symm e)]

theorem device_ref_append (s s' : State) (h : Nat) (w : event_thread)
    (hw : s'.waiters = s.waiters ++ [w]) :
    device_ref s' h = if h = s.waiters.length then w.mpp else device_ref s h := by
  unfold device_ref
  rw [hw]
  split
  · rename_i e
    subst e
    simp
  · rename_i e
    rcases Nat.lt_or_ge h s.waiters.length with hlt | hge
    · rw [List.getElem?_append_left hlt]
    · have hgt : s.waiters.length < h := by omega
      rw [List.getElem?_eq_none (by simp; omega), List.getElem?_eq_none hge]

theorem device_ref_lt (s : State) (h d : Nat) (hr : device_ref s h = some d) :
    h < s.waiters.length := by
  rcases Nat.lt_or_ge h s.waiters.length with hlt | hge
  · exact hlt
  · simp [device_ref, List.getElem?_eq_none hge] at hr

theorem monitor_ref_lt (s : State) (d h : Nat) (hr : monitor_ref s d = some h) :
    d < s.mpps.length := by
  rcases Nat.lt_or_ge d s.mpps.length with hlt | hge
  · exact hlt
  · simp [monitor_ref, List.getElem?_eq_none hge] at hr

/-- Every way a `stop_waiter_thread` call on a device can return. -/
theorem stop_waiter_thread_cases (d : Nat) (vecs : Option Nat) (s s' : State)
    (h : stop_waiter_thread (some d) vecs s = some s') :
    (monitor_ref s d = none ∧ s'.mpps = s.mpps ∧ s'.waiters = s.waiters) ∨
    (∃ m hd w, s.mpps[d]? = some m ∧ monitor_ref s d = some hd ∧ s.waiters[hd]? = some w ∧
      s'.mpps = s.mpps.set d { m with waiter := none } ∧
      s'.waiters = s.waiters.set hd { w with mpp := none }) := by
  unfold stop_waiter_thread at h
  cases hm : s.mpps[d]? with
  | none => simp [hm] at h
  | some m =>
    simp only [hm, Option.bind_eq_bind, Option.some_bind] at h
    cases hw : m.waiter with
    | none =>
      simp only [hw, Option.pure_def, Option.some.injEq] at h
      subst h
      exact Or.inl ⟨by simp [monitor_ref, hm, hw], rfl, rfl⟩
    | some hd =>
      simp only [hw] at h
      cases hx : s.waiters[hd]? with
      | none => simp [hx] at h
      | some w =>
        simp only [hx, Option.some_bind, Option.pure_def, Option.some.injEq] at h
        subst h
        exact Or.inr ⟨m, hd, w, rfl, by simp [monitor_ref, hm, hw], hx, rfl, rfl⟩

/-- The property "a monitor reference is answered by the handle's device
reference" is kept by `stop_waiter_thread`. -/
theorem stop_keeps_forward (d : Nat) (vecs : Option Nat) (s s' : State)
    (hf : ∀ d h, monitor_ref s d = some h → device_ref s h = some d)
    (h : stop_waiter_thread (some d) vecs s = some s') :
    ∀ d' h', monitor_ref s' d' = some h' → device_ref s' h' = some d' := by
  rcases stop_waiter_thread_cases d vecs s s' h with
    ⟨-, hm, hw⟩ | ⟨m, hd, w, hm, hmr, hw, hm', hw'⟩
  · intro d' h' hr
    have : monitor_ref s d' = some h' := by simpa [monitor_ref, hm] using hr
    simpa [device_ref, hw] using hf d' h' this
  · intro d' h' hr
    have hdl := monitor_ref_lt s d hd hmr
    have hhl := device_ref_lt s hd d (hf d hd hmr)
    rw [monitor_ref_set s s' d d' _ hm' hdl] at hr
    split at hr
    · cases hr
    · rename_i hne
      rw [device_ref_set s s' hd h' _ hw' hhl]
      have hb := hf d' h' hr
      split
      · rename_i e
        subst e
        have := hf d h' hmr
        rw [hb] at this
        exact absurd (Option.some.inj this) hne
      · exact hb

/-- The converse property is kept by `stop_waiter_thread`. -/
theorem stop_keeps_backward (d : Nat) (vecs : Option Nat) (s s' : State)
    (hf : ∀ d h, monitor_ref s d = some h → device_ref s h = some d)
    (hb : ∀ d h, device_ref s h = some d → monitor_ref s d = some h)
    (h : stop_waiter_thread (some d) vecs s = some s') :
    ∀ d' h', device_ref s' h' = some d' → monitor_ref s' d' = some h' := by
  rcases stop_waiter_thread_cases d vecs s s' h with
    ⟨-, hm, hw⟩ | ⟨m, hd, w, hm, hmr, hw, hm', hw'⟩
  · intro d' h' hr
    have : device_ref s h' = some d' := by simpa [device_ref, hw] using hr
    simpa [monitor_ref, hm] using hb d' h' this
  · intro d' h' hr
    have hdl := monitor_ref_lt s d hd hmr
    have hhl := device_ref_lt s hd d (hf d hd hmr)
    rw [device_ref_set s s' hd h' _ hw' hhl] at hr
    split at hr
    · cases hr
    · rename_i hne
      rw [monitor_ref_set s s' d d' _ hm' hdl]
      have hx := hb d' h' hr
      split
      · rename_i e
        subst e
        rw [hmr] at hx
        exact absurd (Option.some.inj hx).symm hne
      · exact hx

/-- The forward property is kept by `start_waiter_thread`. -/
theorem start_keeps_forward (plat : Platform) (o : Outcomes) (d : Nat) (vecs : Option Nat)
    (s s' : State) (r : Int)
    (hf : ∀ d h, monitor_ref s d = some h → device_ref s h = some d)
    (h : start_waiter_thread plat o (some d) vecs s = some (r, s')) :
    ∀ d' h', monitor_ref s' d' = some h' → device_ref s' h' = some d' := by
  rcases start_waiter_thread_cases plat o d vecs s s' r h with
    ⟨-, hm, hw, -⟩ | ⟨m, a, t, hm, -, -, -, rfl⟩ | ⟨m, a, hm, -, -, -, rfl⟩
  · intro d' h' hr
    have : monitor_ref s d' = some h' := by simpa [monitor_ref, hm] using hr
    simpa [device_ref, hw] using hf d' h' this
  · intro d' h' hr
    have hdl : d < s.mpps.length := by
      rcases Nat.lt_or_ge d s.mpps.length with hlt | hge
      · exact hlt
      · rw [List.getElem?_eq_none hge] at hm; cases hm
    rw [monitor_ref_set s _ d d' _ rfl hdl] at hr
    rw [device_ref_append s _ h' _ rfl]
    split at hr
    · rename_i e
      subst e
      simp only [Option.some.injEq] at hr
      subst hr
      simp
    · have hx := hf d' h' hr
      have := device_ref_lt s h' d' hx
      rw [if_neg (by omega)]
      exact hx
  · intro d' h' hr
    have hdl : d < s.mpps.length := by
      rcases Nat.lt_or_ge d s.mpps.length with hlt | hge
      · exact hlt
      · rw [List.getElem?_eq_none hge] at hm; cases hm
    rw [monitor_ref_set s _ d d' _ rfl hdl] at hr
    rw [device_ref_append s _ h' _ rfl]
    split at hr
    · cases hr
    · have hx := hf d' h' hr
      have := device_ref_lt s h' d' hx
      rw [if_neg (by omega)]
      exact hx

/-- The converse property is kept by a `start_waiter_thread` call on an
unpaired device whose `pthread_create` does not fail. -/
theorem start_keeps_backward (plat : Platform) (o : Outcomes) (d : Nat) (vecs : Option Nat)
    (s s' : State) (r : Int)
    (hb : ∀ d h, device_ref s h = some d → monitor_ref s d = some h)
    (hnone : monitor_ref s d = none) (hc : o.create_tid.isSome = true)
    (h : start_waiter_thread plat o (some d) vecs s = some (r, s')) :
    ∀ d' h', device_ref s' h' = some d' → monitor_ref s' d' = some h' := by
  rcases start_waiter_thread_cases plat o d vecs s s' r h with
    ⟨-, hm, hw, -⟩ | ⟨m, a, t, hm, -, -, -, rfl⟩ | ⟨m, a, hm, -, hcn, -, rfl⟩
  · intro d' h' hr
    have : device_ref s h' = some d' := by simpa [device_ref, hw] using hr
    simpa [monitor_ref, hm] using hb d' h' this
  · intro d' h' hr
    have hdl : d < s.mpps.length := by
      rcases Nat.lt_or_ge d s.mpps.length with hlt | hge
      · exact hlt
      · rw [List.getElem?_eq_none hge] at hm; cases hm
    rw [device_ref_append s _ h' _ rfl] at hr
    rw [monitor_ref_set s _ d d' _ rfl hdl]
    split at hr
    · rename_i e
      subst e
      simp only [Option.some.injEq] at hr
      subst hr
      simp
    · have hx := hb d' h' hr
      split
      · rename_i e
        subst e
        rw [hnone] at hx
        cases hx
      · exact hx
  · rw [hcn] at hc
    cases hc

theorem all_unpaired_refs (s : State) (h : all_unpaired s = true) :
    (∀ d, monitor_ref s d = none) ∧ (∀ x, device_ref s x = none) := by
  simp only [all_unpaired, Bool.and_eq_true, List.all_eq_true] at h
  constructor
  · intro d
    unfold monitor_ref
    cases hm : s.mpps[d]? with
    | none => rfl
    | some m => simpa using h.1 m (List.getElem?_mem hm)
  · intro x
    unfold device_ref
    cases hw : s.waiters[x]? with
    | none => rfl
    | some w => simpa using h.2 w (List.getElem?_mem hw)

/-- The forward property is kept by every sequence of calls. -/
theorem run_keeps_forward (plat : Platform) (ops : List Op) :
    ∀ (s0 s : State), (∀ d h, monitor_ref s0 d = some h → device_ref s0 h = some d) →
      run plat s0 ops = some s →
      ∀ d h, monitor_ref s d = some h → device_ref s h = some d := by
  induction ops with
  | nil =>
    intro s0 s hf hrun
    simp only [run, Option.some.injEq] at hrun
    subst hrun
    exact hf
  | cons op ops ih =>
    intro s0 s hf hrun
    simp only [run] at hrun
    cases hs : step plat s0 op with
    | none => simp [hs] at hrun
    | some s1 =>
      simp only [hs, Option.some_bind] at hrun
      refine ih s1 s ?_ hrun
      cases op with
      | start o mpp vecs =>
        simp only [step] at hs
        cases hst : start_waiter_thread plat o (some mpp) vecs s0 with
        | none => simp [hst] at hs
        | some p =>
          obtain ⟨r, s1'⟩ := p
          simp only [hst, Option.map_some', Option.some.injEq] at hs
          subst hs
          exact start_keeps_forward plat o mpp vecs s0 s1' r hf hst
      | stop mpp vecs =>
        exact stop_keeps_forward mpp vecs s0 s1 hf hs

/-- The converse property is kept by every clean sequence of calls. -/
theorem run_keeps_backward (plat : Platform) (ops : List Op) :
    ∀ (s0 s : State), (∀ d h, monitor_ref s0 d = some h → device_ref s0 h = some d) →
      (∀ d h, device_ref s0 h = some d → monitor_ref s0 d = some h) →
      clean plat s0 ops = true → run plat s0 ops = some s →
      ∀ d h, device_ref s h = some d → monitor_ref s d = some h := by
  induction ops with
  | nil =>
    intro s0 s _ hb _ hrun
    simp only [run, Option.some.injEq] at hrun
    subst hrun
    exact hb
  | cons op ops ih =>
    intro s0 s hf hb hcl hrun
    simp only [run] at hrun
    cases hs : step plat s0 op with
    | none => simp [hs] at hrun
    | some s1 =>
      simp only [hs, Option.some_bind] at hrun
      simp only [clean, hs, Bool.and_eq_true] at hcl
      have hf1 : ∀ d h, monitor_ref s1 d = some h → device_ref s1 h = some d :=
        run_keeps_forward plat [op] s0 s1 hf (by simp [run, hs])
      refine ih s1 s hf1 ?_ hcl.2 hrun
      cases op with
      | start o mpp vecs =>
        simp only [step] at hs
        cases hst : start_waiter_thread plat o (some mpp) vecs s0 with
        | none => simp [hst] at hs
        | some p =>
          obtain ⟨r, s1'⟩ := p
          simp only [hst, Option.map_some', Option.some.injEq] at hs
          subst hs
          have hc := hcl.1
          simp only [Op.clean, Bool.and_eq_true, Option.isNone_iff_eq_none] at hc
          exact start_keeps_backward plat o mpp vecs s0 s1' r hb hc.1 hc.2 hst
      | stop mpp vecs =>
        exact stop_keeps_backward mpp vecs s0 s1 hf hb hs

/-! ## Theorems -/

/-- C1: `stop_waiter_thread` on a device record.  When the monitor reference
is absent neither table changes and no signal is sent.  When it names a handle,
the monitor reference and the handle's device reference are both cleared,
exactly one signal is sent, `SIGUSR1` to the handle's thread, and the handle's
`event_nr`, `mapname`, `vecs` and `thread` as well as every other device and
handle are left as they were. -/
theorem stop_waiter_thread_contract (s : State) (d : Nat) (vecs : Option Nat)
    (hd : d < s.mpps.length) :
    (monitor_ref s d = none →
      ∃ s', stop_waiter_thread (some d) vecs s = some s' ∧
        s'.mpps = s.mpps ∧ s'.waiters = s.waiters ∧
        signals_sent (new_events s s') = []) ∧
    (∀ h w, monitor_ref s d = some h → s.waiters[h]? = some w →
      ∃ s', stop_waiter_thread (some d) vecs s = some s' ∧
        monitor_ref s' d = none ∧
        device_ref s' h = none ∧
        s'.waiters[h]? = some { w with mpp := none } ∧
        signals_sent (new_events s s') = [(w.thread, Signal.SIGUSR1)] ∧
        (∀ d', d' ≠ d → s'.mpps[d']? = s.mpps[d']?) ∧
        (∀ h', h' ≠ h → s'.waiters[h']? = s.waiters[h']?) ∧
        (s'.mpps[d]?).map (fun m => m.alias) = (s.mpps[d]?).map (fun m => m.alias)) := by
  obtain ⟨m, hm⟩ : ∃ m, s.mpps[d]? = some m := ⟨s.mpps[d], List.getElem?_eq_getElem hd⟩
  constructor
  · intro hnone
    have hw : m.waiter = none := by simpa [monitor_ref, hm] using hnone
    refine ⟨s.log (.condlog 3 "%s: no waiter thread" [m.alias] []), ?_, rfl, rfl, ?_⟩
    · simp [stop_waiter_thread, hm, hw]
    · rw [new_events_append s _ _ (log_trace s _)]
      rfl
  · intro h w hsome hw
    have hmw : m.waiter = some h := by simpa [monitor_ref, hm] using hsome
    have hh : h < s.waiters.length := by
      rcases Nat.lt_or_ge h s.waiters.length with hlt | hge
      · exact hlt
      · rw [List.getElem?_eq_none hge] at hw; cases hw
    refine ⟨((((s.log (.condlog 2 "%s: stop event checker thread" [w.mapname] [])).set_mpp d
      { m with waiter := none }).set_waiter h { w with mpp := none }).log
        (.pthread_kill w.thread .SIGUSR1)), ?_, ?_, ?_, ?_, ?_, ?_, ?_, ?_⟩
    · simp [stop_waiter_thread, hm, hmw, hw, State.log, State.set_mpp, State.set_waiter]
    · simp [monitor_ref, State.log, State.set_mpp, State.set_waiter, hd]
    · simp [device_ref, State.log, State.set_mpp, State.set_waiter, hh]
    · simp [State.log, State.set_mpp, State.set_waiter, hh]
    · rw [new_events_append s _ [.condlog 2 "%s: stop event checker thread" [w.mapname] [],
        .pthread_kill w.thread .SIGUSR1]]
      · rfl
      · simp [State.log, State.set_mpp, State.set_waiter]
    · intro d' hne
      simp [State.log, State.set_mpp, State.set_waiter, List.getElem?_set_ne (Ne.symm hne)]
    · intro h' hne
      simp [State.log, State.set_mpp, State.set_waiter, List.getElem?_set_ne (Ne.symm hne)]
    · simp [State.log, State.set_mpp, State.set_waiter, hd, hm]

/-- Witness for C1 on `paired_state`: device 0 is paired to handle 0. -/
theorem stop_waiter_thread_contract_witness :
    0 < paired_state.mpps.length ∧
    (monitor_ref paired_state 0 = none →
      ∃ s', stop_waiter_thread (some 0) none paired_state = some s' ∧
        s'.mpps = paired_state.mpps ∧ s'.waiters = paired_state.waiters ∧
        signals_sent (new_events paired_state s') = []) ∧
    (∀ h w, monitor_ref paired_state 0 = some h → paired_state.waiters[h]? = some w →
      ∃ s', stop_waiter_thread (some 0) none paired_state = some s' ∧
        monitor_ref s' 0 = none ∧
        device_ref s' h = none ∧
        s'.waiters[h]? = some { w with mpp := none } ∧
        signals_sent (new_events paired_state s') = [(w.thread, Signal.SIGUSR1)] ∧
        (∀ d', d' ≠ 0 → s'.mpps[d']? = paired_state.mpps[d']?) ∧
        (∀ h', h' ≠ h → s'.waiters[h']? = paired_state.waiters[h']?) ∧
        (s'.mpps[0]?).map (fun m => m.alias) =
          (paired_state.mpps[0]?).map (fun m => m.alias)) :=
  ⟨by decide, stop_waiter_thread_contract paired_state 0 none (by decide)⟩

/-- C2: when the event-wait call issued by `waiteventloop` is interrupted
(`dm_task_run` returns 0), `waiteventloop` returns -1, the log of the call holds
no lock, no `update_multipath` and no `sleep` event, the tables are as the
seeding step left them (so `event_nr` is not incremented), and the loop of
`waitevent` ends in that very state: nothing is logged after it, no `sleep` in particular, and
`waitevent` goes on to its cleanup handler. -/
theorem waiteventloop_interrupted (fuel : Nat) (env : Env) (w : Nat) (s s1 s2 : State)
    (hseed : waiteventloop_seed env w s = some s1)
    (htask : waiteventloop_task env w s1 = some (true, s2))
    (hrun : env.dm_task_run (s2.log (.sigmask_unblock [.SIGHUP, .SIGUSR1])) = 0) :
    ∃ s3, waiteventloop fuel env w s = some (-1, s3) ∧
      (∀ e ∈ new_events s s3,
        e.is_lock = false ∧ e.is_update = false ∧ e.is_sleep = false) ∧
      s3.waiters = s1.waiters ∧ s3.mpps = s.mpps ∧
      new_events s2 s3 = [.sigmask_unblock [.SIGHUP, .SIGUSR1], .dm_task_run 0,
        .sigmask_restore, .dm_task_destroy] ∧
      waitevent_loop (fuel + 1) env w s = some s3 ∧
      (∀ s0, s = s0.log .mlockall → waitevent (fuel + 1) env w s0 = free_waiter w s3) := by
  have hloop : waiteventloop (fuel + 1) env w s = some (-1,
      (((s2.log (.sigmask_unblock [.SIGHUP, .SIGUSR1])).log (.dm_task_run 0)).log
        .sigmask_restore).log .dm_task_destroy) := by
    simp [waiteventloop, hseed, htask, waiteventloop_wait, hrun]
  have hthread : waitevent_loop (fuel + 1) env w s = some
      ((((s2.log (.sigmask_unblock [.SIGHUP, .SIGUSR1])).log (.dm_task_run 0)).log
        .sigmask_restore).log .dm_task_destroy) := by
    simp [waitevent_loop, hloop]
  obtain ⟨hm1, hx1⟩ := waiteventloop_seed_frame env w s s1 hseed
  obtain ⟨hm2, hw2, hx2⟩ := waiteventloop_task_frame env w s1 s2 true htask
  have hq : ∀ e : Event, e.is_query = true →
      e.is_lock = false ∧ e.is_update = false ∧ e.is_sleep = false := by
    intro e he
    cases e <;> simp_all [Event.is_query, Event.is_lock, Event.is_update, Event.is_sleep]
  have hp : ∀ e : Event, e.is_plain = true →
      e.is_lock = false ∧ e.is_update = false ∧ e.is_sleep = false := by
    intro e he
    cases e <;> simp_all [Event.is_plain, Event.is_lock, Event.is_update, Event.is_sleep]
  refine ⟨_, ?_, ?_, ?_, ?_, ?_, hthread, ?_⟩
  · simp [waiteventloop, hseed, htask, waiteventloop_wait, hrun]
  · apply Extends.new_events
    repeat (first | exact (hx1.mono hq).trans (hx2.mono hp) | refine Extends.log ?_ _ ⟨rfl, rfl, rfl⟩)
  · simp [State.log, hw2]
  · simp [State.log, hm1, hm2]
  · exact new_events_append s2 _ _ (by simp [State.log])
  · intro s0 hs0
    subst hs0
    simp [waitevent, hthread]

/-- Witness for C2: the handle of `paired_state` under `env_interrupted`. -/
theorem waiteventloop_interrupted_witness :
    waiteventloop_seed env_interrupted 0 paired_state = some paired_state ∧
    waiteventloop_task env_interrupted 0 paired_state = some (true, paired_state_task) ∧
    env_interrupted.dm_task_run
      (paired_state_task.log (.sigmask_unblock [.SIGHUP, .SIGUSR1])) = 0 ∧
    ∃ s3, waiteventloop 0 env_interrupted 0 paired_state = some (-1, s3) ∧
      (∀ e ∈ new_events paired_state s3,
        e.is_lock = false ∧ e.is_update = false ∧ e.is_sleep = false) ∧
      s3.waiters = paired_state.waiters ∧ s3.mpps = paired_state.mpps ∧
      new_events paired_state_task s3 = [.sigmask_unblock [.SIGHUP, .SIGUSR1], .dm_task_run 0,
        .sigmask_restore, .dm_task_destroy] ∧
      waitevent_loop (0 + 1) env_interrupted 0 paired_state = some s3 ∧
      (∀ s0, paired_state = s0.log .mlockall →
        waitevent (0 + 1) env_interrupted 0 s0 = free_waiter 0 s3) :=
  ⟨by decide, by decide, rfl,
    waiteventloop_interrupted 0 env_interrupted 0 paired_state paired_state paired_state_task
      (by decide) (by decide) rfl⟩

/-- C3, as amended.  First part: a reconciliation pass in which
`update_multipath` returns non-zero makes the inner loop of `waiteventloop`
return -1 at once, whatever fuel is left, after logging one `condlog`.
Second part: in a finished run of the thread routine `waitevent` in which some
`update_multipath` call returned non-zero, the events after that call are the
unlock, the `condlog` of the exit, and the one event of `free_waiter`: no
`dm_geteventnr`, no `sleep`, no second `waiteventloop`.  The handle is freed
once when its device reference is absent at that point; when the reference is
still set `free_waiter` logs "waiter not cleared" and `FREE` is never called. -/
theorem waitevent_device_gone (env : Env) (w : Nat) :
    (∀ (fuel : Nat) (s s1 : State) (r : Int) (wt : event_thread),
      waiteventloop_update env w s = some (r, s1) → r ≠ 0 → s1.waiters[w]? = some wt →
      waiteventloop_upon_event (fuel + 1) env w s =
        some (-1, s1.log (.condlog 2 "%s: event checker exit" [wt.mapname] []))) ∧
    (∀ (fuel : Nat) (s s' : State) (post : List Event),
      waitevent fuel env w s = some s' → gone_tail (new_events s s') = some post →
      ∃ v name wt, s'.waiters[w]? = some wt ∧
        ((wt.mpp = none ∧
            post = [.unlock v, .condlog 2 "%s: event checker exit" [name] [], .FREE w] ∧
            free_count w (new_events s s') = 1) ∨
         (wt.mpp ≠ none ∧
            post = [.unlock v, .condlog 2 "%s: event checker exit" [name] [],
              .condlog 3 "%s: waiter not cleared" [wt.mapname] []] ∧
            free_count w (new_events s s') = 0))) := by
  constructor
  · intro fuel s s1 r wt hu hr hw
    simp [waiteventloop_upon_event, hu, hw, hr]
  · intro fuel s s' post h hg
    unfold waitevent at h
    cases hl : waitevent_loop fuel env w (s.log .mlockall) with
    | none => simp [hl] at h
    | some s1 =>
      obtain ⟨e1, ht1, hq1, hc1⟩ := waitevent_loop_shape fuel env w _ _ hl
      simp only [hl, Option.bind_eq_bind, Option.some_bind, free_waiter] at h
      cases hw : s1.waiters[w]? with
      | none => simp [hw] at h
      | some wt =>
        simp only [hw, Option.some_bind] at h
        have hcount : free_count w ([Event.mlockall] ++ e1) = 0 := by
          apply free_count_eq_zero
          intro e he
          rcases List.mem_append.1 he with he | he
          · rw [List.mem_singleton.1 he]; rfl
          · exact hq1 e he
        split at h
        · rename_i hm
          simp only [Option.pure_def, Option.some.injEq] at h
          subst h
          have hne : new_events s (s1.log (.condlog 3 "%s: waiter not cleared" [wt.mapname] []))
              = ([Event.mlockall] ++ e1) ++ [.condlog 3 "%s: waiter not cleared" [wt.mapname] []] :=
            new_events_append _ _ _ (by simp [State.log, ht1])
          rw [hne, gone_tail_append] at hg
          rw [hne]
          have hg0 : gone_tail ([Event.mlockall] ++ e1) = gone_tail e1 := rfl
          rw [hg0] at hg
          rcases hc1 with hg1 | ⟨v, name, hg1⟩
          · rw [hg1] at hg
            simp [gone_tail] at hg
          · rw [hg1] at hg
            simp only [Option.some.injEq] at hg
            refine ⟨v, name, wt, hw, Or.inr ⟨?_, hg.symm, ?_⟩⟩
            · intro hnone; simp [hnone] at hm
            · unfold free_count at hcount ⊢
              rw [List.count_append, hcount]
              simp
        · rename_i hm
          simp only [Option.pure_def, Option.some.injEq] at h
          subst h
          have hne : new_events s (s1.log (.FREE w)) = ([Event.mlockall] ++ e1) ++ [.FREE w] :=
            new_events_append _ _ _ (by simp [State.log, ht1])
          rw [hne, gone_tail_append] at hg
          rw [hne]
          have hg0 : gone_tail ([Event.mlockall] ++ e1) = gone_tail e1 := rfl
          rw [hg0] at hg
          rcases hc1 with hg1 | ⟨v, name, hg1⟩
          · rw [hg1] at hg
            simp [gone_tail] at hg
          · rw [hg1] at hg
            simp only [Option.some.injEq] at hg
            refine ⟨v, name, wt, hw, Or.inl ⟨?_, hg.symm, ?_⟩⟩
            · simpa using hm
            · unfold free_count at hcount ⊢
              rw [List.count_append, hcount]
              simp

/-- Witness for C3: the thread of `paired_state` when `update_multipath`
returns 1 after unpairing the handle. -/
theorem waitevent_device_gone_witness :
    waiteventloop_upon_event (0 + 1) env_gone_unpaired 0 paired_state =
      some (-1, unpaired_after_update.log
        (.condlog 2 "%s: event checker exit" ["mpatha"] [])) ∧
    ∃ v name wt, unpaired_final.waiters[0]? = some wt ∧
      ((wt.mpp = none ∧
          [Event.unlock 0, .condlog 2 "%s: event checker exit" ["mpatha"] [], .FREE 0] =
            [.unlock v, .condlog 2 "%s: event checker exit" [name] [], .FREE 0] ∧
          free_count 0 (new_events paired_state unpaired_final) = 1) ∨
       (wt.mpp ≠ none ∧
          [Event.unlock 0, .condlog 2 "%s: event checker exit" ["mpatha"] [], .FREE 0] =
            [.unlock v, .condlog 2 "%s: event checker exit" [name] [],
              .condlog 3 "%s: waiter not cleared" [wt.mapname] []] ∧
          free_count 0 (new_events paired_state unpaired_final) = 0)) :=
  ⟨(waitevent_device_gone env_gone_unpaired 0).1 0 paired_state unpaired_after_update 1
      ⟨7, 5, "mpatha", some 0, none⟩ (by decide) (by decide) (by decide),
    (waitevent_device_gone env_gone_unpaired 0).2 1 paired_state unpaired_final
      [.unlock 0, .condlog 2 "%s: event checker exit" ["mpatha"] [], .FREE 0]
      (by decide) (by decide)⟩

/-- Counterexample to C3 as stated: `update_multipath` returns 1 and leaves the
handle paired; `waitevent` ends, `free_waiter` logs "waiter not cleared" and
`FREE` is never called on the handle. -/
theorem waitevent_gone_not_released :
    waitevent 1 env_gone_paired 0 paired_state = some paired_final ∧
    gone_tail (new_events paired_state paired_final) =
      some [.unlock 0, .condlog 2 "%s: event checker exit" ["mpatha"] [],
        .condlog 3 "%s: waiter not cleared" ["mpatha"] []] ∧
    free_count 0 (new_events paired_state paired_final) = 0 := by
  decide

/-- C4: after a reconciliation pass in which `update_multipath` returned 0,
the loop reads the kernel event number `n` with `dm_geteventnr`.  When `n`
equals the handle's `event_nr` the loop returns 1 and leaves both tables as the
reconciliation left them.  When `n` differs, the loop stores `n` in `event_nr`
and starts its next pass in the state reached by logging only that
`dm_geteventnr` call (so no `dm_task_run` and no `sleep` in between, and
nothing returned); that next pass logs its `condlog`, the lock, the
`update_multipath` call and the unlock, in this order. -/
theorem waiteventloop_recheck (fuel : Nat) (env : Env) (w : Nat) (s s1 : State)
    (wt : event_thread)
    (hu : waiteventloop_update env w s = some (0, s1))
    (hw : s1.waiters[w]? = some wt) :
    (env.dm_geteventnr s1 wt.mapname = wt.event_nr →
      waiteventloop_upon_event (fuel + 1) env w s =
        some (1, s1.log (.dm_geteventnr wt.mapname wt.event_nr))) ∧
    (env.dm_geteventnr s1 wt.mapname ≠ wt.event_nr →
      ∃ s2, waiteventloop_upon_event (fuel + 1) env w s =
          waiteventloop_upon_event fuel env w s2 ∧
        s2.waiters[w]? = some { wt with event_nr := env.dm_geteventnr s1 wt.mapname } ∧
        s2.mpps = s1.mpps ∧
        (∀ h, h ≠ w → s2.waiters[h]? = s1.waiters[h]?) ∧
        new_events s1 s2 = [.dm_geteventnr wt.mapname (env.dm_geteventnr s1 wt.mapname)] ∧
        (∀ r3 s3, waiteventloop_update env w s2 = some (r3, s3) →
          ∃ v, new_events s2 s3 =
            [.condlog 3 "%s: devmap event #%i" [wt.mapname] [env.dm_geteventnr s1 wt.mapname],
              .lock v, .update_multipath v wt.mapname r3, .unlock v])) := by
  have hlt : w < s1.waiters.length := by
    rcases Nat.lt_or_ge w s1.waiters.length with hlt | hge
    · exact hlt
    · rw [List.getElem?_eq_none hge] at hw; cases hw
  constructor
  · intro hn
    simp [waiteventloop_upon_event, hu, hw, hn]
  · intro hn
    refine ⟨(s1.log (.dm_geteventnr wt.mapname (env.dm_geteventnr s1 wt.mapname))).set_waiter w
      { wt with event_nr := env.dm_geteventnr s1 wt.mapname }, ?_, ?_, rfl, ?_, ?_, ?_⟩
    · simp [waiteventloop_upon_event, hu, hw, Ne.symm hn]
    · simp [State.log, State.set_waiter, hlt]
    · intro h hne
      simp [State.log, State.set_waiter, List.getElem?_set_ne (Ne.symm hne)]
    · exact new_events_append _ _ _ rfl
    · intro r3 s3 h3
      obtain ⟨wt3, v, hw3, -, ht3⟩ := waiteventloop_update_trace env w _ s3 r3 h3
      have : wt3 = { wt with event_nr := env.dm_geteventnr s1 wt.mapname } := by
        simpa [State.log, State.set_waiter, hlt] using hw3.symm
      subst this
      exact ⟨v, new_events_append _ _ _ ht3⟩

/-- Witness for C4: one reconciliation pass on `paired_state` with
`update_multipath` returning 0. -/
theorem waiteventloop_recheck_witness :
    waiteventloop_update env_interrupted 0 paired_state = some (0, paired_after_update) ∧
    paired_after_update.waiters[0]? = some ⟨7, 5, "mpatha", some 0, some 0⟩ ∧
    waiteventloop_upon_event (0 + 1) env_interrupted 0 paired_state =
      some (1, paired_after_update.log (.dm_geteventnr "mpatha" 5)) :=
  ⟨by decide, by decide,
    (waiteventloop_recheck 0 env_interrupted 0 paired_state paired_after_update
      ⟨7, 5, "mpatha", some 0, some 0⟩ (by decide) (by decide)).1 rfl⟩

/-- Counterexample to C5 as stated: the handle's device reference is absent
when `waiteventloop` starts, the wait ends with an event instead of an
interruption, and the call returns 1 (sleep one second and call again), not the
stop result. -/
theorem waiteventloop_unpaired_reschedules :
    device_ref stopped_state 0 = none ∧
    waiteventloop 1 env_event 0 stopped_state = some (1, stopped_after_loop) := by
  decide

/-- C5, as amended: for a handle whose device reference is absent when
`waiteventloop` starts, a call that returns has result -1 or 1, and the result
is -1 exactly when the log of the call holds an interrupted wait
(`dm_task_run` returned 0) or an `update_multipath` call that returned
non-zero.  The device reference plays no part. -/
theorem waiteventloop_stop_iff (fuel : Nat) (env : Env) (w : Nat) (s s' : State) (r : Int)
    (_habsent : device_ref s w = none)
    (h : waiteventloop fuel env w s = some (r, s')) :
    (r = -1 ∨ r = 1) ∧
    (r = -1 ↔ (Event.dm_task_run 0 ∈ new_events s s' ∨
      (gone_tail (new_events s s')).isSome = true)) := by
  obtain ⟨evs, ht, -, hc⟩ := waiteventloop_shape fuel env w s s' r h
  rw [new_events_append s s' evs ht]
  rcases hc with ⟨hr, hg, hn⟩ | ⟨hr, hg, hi⟩ | ⟨hr, hn, v, name, hg⟩
  · subst hr
    refine ⟨Or.inr rfl, ?_⟩
    simp [hg, hn]
  · subst hr
    exact ⟨Or.inl rfl, by simp [hi]⟩
  · subst hr
    exact ⟨Or.inl rfl, by simp [hg]⟩

/-- Witness for C5: the call of the counterexample, which returns 1 with
neither an interrupted wait nor a non-zero `update_multipath` in its log. -/
theorem waiteventloop_stop_iff_witness :
    device_ref stopped_state 0 = none ∧
    waiteventloop 1 env_event 0 stopped_state = some (1, stopped_after_loop) ∧
    (((1 : Int) = -1 ∨ (1 : Int) = 1) ∧
    ((1 : Int) = -1 ↔ (Event.dm_task_run 0 ∈ new_events stopped_state stopped_after_loop ∨
      (gone_tail (new_events stopped_state stopped_after_loop)).isSome = true))) :=
  ⟨by decide, by decide,
    waiteventloop_stop_iff 1 env_event 0 stopped_state stopped_after_loop 1
      (by decide) (by decide)⟩

/-- Counterexample to C6 as stated: `dm_task_create` fails in the first
`waiteventloop` call, which returns 1; `waitevent` sleeps one second and calls
`waiteventloop` again instead of ending the thread. -/
theorem waitevent_retries_after_task_failure :
    waiteventloop 0 env_create_fails 0 paired_state = some (1, create_failed_state) ∧
    waitevent 2 env_create_fails 0 paired_state = some create_retry_final := by
  decide

/-- C6, as amended: when building the wait request fails (`dm_task_create`,
`dm_task_set_name`, or, for a non-zero `event_nr`, `dm_task_set_event_nr`),
`waiteventloop` returns 1 without calling `dm_task_run`, and `waitevent` logs
`sleep(1)` and calls `waiteventloop` again. -/
theorem waiteventloop_task_failure (fuel : Nat) (env : Env) (w : Nat) (s s1 : State)
    (wt : event_thread)
    (hseed : waiteventloop_seed env w s = some s1)
    (hw : s1.waiters[w]? = some wt)
    (hfail : env.dm_task_create s1 = false ∨
      env.dm_task_set_name (s1.log (.dm_task_create true)) wt.mapname = false ∨
      (wt.event_nr ≠ 0 ∧ env.dm_task_set_event_nr
        ((s1.log (.dm_task_create true)).log (.dm_task_set_name wt.mapname true))
        wt.event_nr = false)) :
    ∃ s2, waiteventloop fuel env w s = some (1, s2) ∧
      (∀ e ∈ new_events s s2, e.is_wait = false) ∧
      waitevent_loop (fuel + 1) env w s = waitevent_loop fuel env w (s2.log (.sleep 1)) := by
  have htask : ∃ s2, waiteventloop_task env w s1 = some (false, s2) := by
    unfold waiteventloop_task
    simp only [hw, Option.bind_eq_bind, Option.some_bind]
    cases hc : env.dm_task_create s1 with
    | false => exact ⟨_, by simp; rfl⟩
    | true =>
      cases hn : env.dm_task_set_name (s1.log (.dm_task_create true)) wt.mapname with
      | false => exact ⟨_, by simp [hn]; rfl⟩
      | true =>
        rcases hfail with hf | hf | ⟨hz, hf⟩
        · rw [hc] at hf; cases hf
        · rw [hn] at hf; cases hf
        · exact ⟨_, by simp [hn, hz, hf]; rfl⟩
  obtain ⟨s2, htask⟩ := htask
  obtain ⟨-, hx1⟩ := waiteventloop_seed_frame env w s s1 hseed
  obtain ⟨-, -, hx2⟩ := waiteventloop_task_frame env w s1 s2 false htask
  have hloop : ∀ f, waiteventloop f env w s = some (1, s2) := by
    intro f
    simp [waiteventloop, hseed, htask]
  refine ⟨s2, hloop fuel, ?_, ?_⟩
  · apply Extends.new_events
    exact (hx1.mono (fun e he => (is_update_of_is_query e he).2.1)).trans
      (hx2.mono (fun e he => (is_update_of_is_plain e he).2.1))
  · simp [waitevent_loop, hloop]

/-- Witness for C6: `dm_task_create` fails on `paired_state`. -/
theorem waiteventloop_task_failure_witness :
    waiteventloop_seed env_create_fails 0 paired_state = some paired_state ∧
    paired_state.waiters[0]? = some ⟨7, 5, "mpatha", some 0, some 0⟩ ∧
    env_create_fails.dm_task_create paired_state = false ∧
    ∃ s2, waiteventloop 1 env_create_fails 0 paired_state = some (1, s2) ∧
      (∀ e ∈ new_events paired_state s2, e.is_wait = false) ∧
      waitevent_loop (1 + 1) env_create_fails 0 paired_state =
        waitevent_loop 1 env_create_fails 0 (s2.log (.sleep 1)) :=
  ⟨by decide, by decide, by decide,
    waiteventloop_task_failure 1 env_create_fails 0 paired_state paired_state
      ⟨7, 5, "mpatha", some 0, some 0⟩ (by decide) (by decide) (Or.inl (by decide))⟩

/-- Counterexample to C10 as stated: the platform default and
`PTHREAD_STACK_MIN` are 16 KiB, `pthread_attr_setstacksize` fails and the
second `pthread_attr_init` succeeds; `pthread_create` is called with a stack
size of 16384 bytes. -/
theorem start_waiter_thread_small_stack :
    start_waiter_thread small_stack_platform setstacksize_fails (some 0) (some 0)
        unpaired_state =
      some (0, started_state small_stack_platform ⟨16384, true⟩ 0 ⟨"mpatha", none⟩ (some 0) 8
        unpaired_state) ∧
    new_events unpaired_state (started_state small_stack_platform ⟨16384, true⟩ 0
        ⟨"mpatha", none⟩ (some 0) 8 unpaired_state) =
      [.pthread_create ⟨16384, true⟩ 0 (some 8), .pthread_attr_destroy,
        .condlog 2 "%s: event checker started" ["mpatha"] []] ∧
    (16384 : Nat) < 32768 := by
  decide

/-- C10, as amended: whenever `start_waiter_thread` reaches `pthread_create`,
the stack size in the attributes is as follows.  Let `req` be the size the
function asks for: the default read with `pthread_attr_getstacksize`
(`PTHREAD_STACK_MIN` when that call fails), raised to 32768.  When
`req > PTHREAD_STACK_MIN` and `pthread_attr_setstacksize` succeeds, the stack
size is `req`, at least 32768.  Otherwise (the call is skipped, or it fails and
the attributes are initialised again) the stack size is the platform default,
whatever it is.  When `pthread_attr_getstacksize` succeeds and the platform
default is at least 32768, the stack size equals the platform default. -/
theorem start_waiter_thread_stacksize (plat : Platform) (o : Outcomes) (d : Nat)
    (vecs : Option Nat) (s s' : State) (r : Int) (attr : pthread_attr_t) (arg : Nat)
    (tid : Option Nat)
    (h : start_waiter_thread plat o (some d) vecs s = some (r, s'))
    (hev : Event.pthread_create attr arg tid ∈ new_events s s') :
    start_stacksize plat o =
      max 32768 (if o.getstacksize_ok then plat.default_stacksize else plat.PTHREAD_STACK_MIN) ∧
    (plat.PTHREAD_STACK_MIN < start_stacksize plat o → o.setstacksize_ok = true →
      attr.stacksize = start_stacksize plat o ∧ 32768 ≤ attr.stacksize) ∧
    (¬(plat.PTHREAD_STACK_MIN < start_stacksize plat o ∧ o.setstacksize_ok = true) →
      attr.stacksize = plat.default_stacksize) ∧
    (o.getstacksize_ok = true → 32768 ≤ plat.default_stacksize →
      attr.stacksize = plat.default_stacksize) := by
  have ha := start_waiter_thread_attr plat o d vecs s s' r attr arg tid h hev
  have hreq : start_stacksize plat o =
      max 32768 (if o.getstacksize_ok then plat.default_stacksize
        else plat.PTHREAD_STACK_MIN) := by
    simp only [start_stacksize]
    split <;> split <;> omega
  have hge : 32768 ≤ start_stacksize plat o := by rw [hreq]; exact Nat.le_max_left _ _
  refine ⟨hreq, ?_, ?_, ?_⟩
  · intro hgt hset
    simp only [start_attr, gt_iff_lt, hgt, hset, if_true] at ha
    split at ha
    · cases ha
    · injection ha with ha
      rw [← ha]
      exact ⟨rfl, hge⟩
  · intro hnot
    simp only [start_attr, gt_iff_lt] at ha
    split at ha
    · cases ha
    · split at ha
      · rename_i hgt
        split at ha
        · rename_i hset
          exact absurd ⟨hgt, hset⟩ hnot
        · split at ha
          · injection ha with ha
            rw [← ha]
          · cases ha
      · injection ha with ha
        rw [← ha]
  · intro hget hdef
    have hreq2 : start_stacksize plat o = plat.default_stacksize := by
      rw [hreq, hget]; simp; omega
    simp only [start_attr, gt_iff_lt, hreq2] at ha
    split at ha
    · cases ha
    · split at ha
      · split at ha
        · injection ha with ha
          rw [← ha]
        · split at ha
          · injection ha with ha
            rw [← ha]
          · cases ha
      · injection ha with ha
        rw [← ha]

/-- Witness for C10: all calls succeed on a platform with an 8 MiB default. -/
theorem start_waiter_thread_stacksize_witness :
    start_waiter_thread large_stack_platform all_succeed (some 0) (some 0) unpaired_state =
      some (0, started_state large_stack_platform ⟨8388608, true⟩ 0 ⟨"mpatha", none⟩ (some 0) 8
        unpaired_state) ∧
    Event.pthread_create ⟨8388608, true⟩ 0 (some 8) ∈
      new_events unpaired_state (started_state large_stack_platform ⟨8388608, true⟩ 0
        ⟨"mpatha", none⟩ (some 0) 8 unpaired_state) ∧
    (all_succeed.getstacksize_ok = true → 32768 ≤ large_stack_platform.default_stacksize →
      (8388608 : Nat) = large_stack_platform.default_stacksize) :=
  ⟨by decide, by decide,
    (start_waiter_thread_stacksize large_stack_platform all_succeed 0 (some 0) unpaired_state
      (started_state large_stack_platform ⟨8388608, true⟩ 0 ⟨"mpatha", none⟩ (some 0) 8
        unpaired_state) 0 ⟨8388608, true⟩ 0 (some 8) (by decide) (by decide)).2.2.2⟩

/-- Counterexample to C7 as stated: two successful `start_waiter_thread` calls
on the same device.  The first handle's device reference still names device 0,
whose monitor reference now names the second handle. -/
theorem pairing_broken_by_second_start :
    all_unpaired unpaired_state = true ∧
    run large_stack_platform unpaired_state
      [.start all_succeed 0 (some 0), .start all_succeed 0 (some 0)] =
        some twice_started_state ∧
    device_ref twice_started_state 0 = some 0 ∧
    monitor_ref twice_started_state 0 = some 1 ∧
    ¬(monitor_ref twice_started_state 0 = some 0 ↔ device_ref twice_started_state 0 = some 0) := by
  decide

/-- C7, as amended: in every state reached from an all-unpaired state by a
sequence of `start_waiter_thread` and `stop_waiter_thread` calls, a device
whose monitor reference names a handle is named by that handle's device
reference.  The converse holds when every start of the sequence was made on a
device whose monitor reference was absent at that time and whose
`pthread_create` did not fail. -/
theorem pairing_after_run (plat : Platform) (s0 s : State) (ops : List Op)
    (h0 : all_unpaired s0 = true) (hrun : run plat s0 ops = some s) :
    (∀ d h, monitor_ref s d = some h → device_ref s h = some d) ∧
    (clean plat s0 ops = true →
      ∀ d h, monitor_ref s d = some h ↔ device_ref s h = some d) := by
  obtain ⟨hm0, hd0⟩ := all_unpaired_refs s0 h0
  have hf0 : ∀ d h, monitor_ref s0 d = some h → device_ref s0 h = some d := by
    intro d h hr; rw [hm0 d] at hr; cases hr
  have hb0 : ∀ d h, device_ref s0 h = some d → monitor_ref s0 d = some h := by
    intro d h hr; rw [hd0 h] at hr; cases hr
  have hf := run_keeps_forward plat ops s0 s hf0 hrun
  exact ⟨hf, fun hcl d h =>
    ⟨hf d h, run_keeps_backward plat ops s0 s hf0 hb0 hcl hrun d h⟩⟩

/-- Witness for C7: start, stop, start again on the one device of
`unpaired_state`; the second handle is paired with the device. -/
theorem pairing_after_run_witness :
    all_unpaired unpaired_state = true ∧
    run large_stack_platform unpaired_state
      [.start all_succeed 0 (some 0), .stop 0 (some 0), .start all_succeed 0 (some 0)] =
        some started_again_state ∧
    clean large_stack_platform unpaired_state
      [.start all_succeed 0 (some 0), .stop 0 (some 0), .start all_succeed 0 (some 0)] = true ∧
    ((∀ d h, monitor_ref started_again_state d = some h →
        device_ref started_again_state h = some d) ∧
     (clean large_stack_platform unpaired_state
        [.start all_succeed 0 (some 0), .stop 0 (some 0), .start all_succeed 0 (some 0)] = true →
      ∀ d h, monitor_ref started_again_state d = some h ↔
        device_ref started_again_state h = some d)) :=
  ⟨by decide, by decide, by decide,
    pairing_after_run large_stack_platform unpaired_state started_again_state
      [.start all_succeed 0 (some 0), .stop 0 (some 0), .start all_succeed 0 (some 0)]
      (by decide) (by decide)⟩

/-- Counterexample to C8 as stated: `start_waiter_thread` on the paired device
of `paired_state` returns 0, creates a second thread on a second handle and
makes the monitor reference name it; the first handle still names the device. -/
theorem start_waiter_thread_second_thread :
    monitor_ref paired_state 0 = some 0 ∧
    start_waiter_thread large_stack_platform all_succeed (some 0) (some 0) paired_state =
      some (0, restarted_state) ∧
    new_events paired_state restarted_state =
      [.pthread_create ⟨8388608, true⟩ 1 (some 8), .pthread_attr_destroy,
        .condlog 2 "%s: event checker started" ["mpatha"] []] ∧
    monitor_ref restarted_state 0 = some 1 ∧
    device_ref restarted_state 0 = some 0 ∧
    device_ref restarted_state 1 = some 0 := by
  decide

/-- C8, as amended: `start_waiter_thread` does not look at an existing pairing.
On a device whose monitor reference names a handle: when the attribute calls,
the allocation and `pthread_create` succeed, the call returns 0, appends a new
handle whose device reference names the device, makes the monitor reference
name the new handle, and calls `pthread_create` on it; every earlier handle and
every other device is left as it was.  When `pthread_attr_init` fails (first or
second call) the call returns 1 and leaves both tables as they were. -/
theorem start_waiter_thread_on_paired (plat : Platform) (o : Outcomes) (d : Nat)
    (vecs : Option Nat) (s : State) (h_old : Nat) (w : event_thread)
    (hp : monitor_ref s d = some h_old) (hw : s.waiters[h_old]? = some w) :
    (∀ attr tid, start_attr plat o = .ready attr → o.malloc_ok = true →
      o.create_tid = some tid →
      ∃ s', start_waiter_thread plat o (some d) vecs s = some (0, s') ∧
        monitor_ref s' d = some s.waiters.length ∧
        device_ref s' s.waiters.length = some d ∧
        s.waiters.length ≠ h_old ∧ s'.waiters[h_old]? = some w ∧
        (∀ h, h < s.waiters.length → s'.waiters[h]? = s.waiters[h]?) ∧
        (∀ d', d' ≠ d → s'.mpps[d']? = s.mpps[d']?) ∧
        ∃ name, new_events s s' = [.pthread_create attr s.waiters.length (some tid),
          .pthread_attr_destroy, .condlog 2 "%s: event checker started" [name] []]) ∧
    ((∀ attr, start_attr plat o ≠ .ready attr) →
      ∃ s', start_waiter_thread plat o (some d) vecs s = some (1, s') ∧
        s'.mpps = s.mpps ∧ s'.waiters = s.waiters) := by
  have hdl := monitor_ref_lt s d h_old hp
  obtain ⟨m, hm⟩ : ∃ m, s.mpps[d]? = some m := ⟨s.mpps[d], List.getElem?_eq_getElem hdl⟩
  constructor
  · intro attr tid ha hmalloc hc
    have hlt : h_old < s.waiters.length := by
      rcases Nat.lt_or_ge h_old s.waiters.length with hlt | hge
      · exact hlt
      · rw [List.getElem?_eq_none hge] at hw; cases hw
    refine ⟨_, start_waiter_thread_started plat o d vecs s m attr tid ha hmalloc hm hc,
      ?_, ?_, ?_, ?_, ?_, ?_, _, new_events_append s _ _ rfl⟩
    · rw [monitor_ref_set s _ d d _ rfl hdl]; simp
    · rw [device_ref_append s _ _ _ rfl]; simp
    · omega
    · simp [started_state, List.getElem?_append_left hlt, hw]
    · intro h hlt
      simp [started_state, List.getElem?_append_left hlt]
    · intro d' hne
      simp [started_state, List.getElem?_set_ne (Ne.symm hne)]
  · intro hnot
    cases ha : start_attr plat o with
    | init_failed => exact ⟨s, by simp [start_waiter_thread, ha], rfl, rfl⟩
    | reinit_failed =>
      exact ⟨(start_out s).2, by simp [start_waiter_thread, ha, start_out], rfl, rfl⟩
    | ready attr => exact absurd ha (hnot attr)

/-- Witness for C8: the paired device of `paired_state`, all calls succeeding. -/
theorem start_waiter_thread_on_paired_witness :
    monitor_ref paired_state 0 = some 0 ∧
    paired_state.waiters[0]? = some ⟨7, 5, "mpatha", some 0, some 0⟩ ∧
    start_attr large_stack_platform all_succeed = .ready ⟨8388608, true⟩ ∧
    all_succeed.malloc_ok = true ∧ all_succeed.create_tid = some 8 ∧
    ∃ s', start_waiter_thread large_stack_platform all_succeed (some 0) (some 0)
          paired_state = some (0, s') ∧
      monitor_ref s' 0 = some paired_state.waiters.length ∧
      device_ref s' paired_state.waiters.length = some 0 ∧
      paired_state.waiters.length ≠ 0 ∧
      s'.waiters[0]? = some ⟨7, 5, "mpatha", some 0, some 0⟩ ∧
      (∀ h, h < paired_state.waiters.length → s'.waiters[h]? = paired_state.waiters[h]?) ∧
      (∀ d', d' ≠ 0 → s'.mpps[d']? = paired_state.mpps[d']?) ∧
      ∃ name, new_events paired_state s' =
        [.pthread_create ⟨8388608, true⟩ paired_state.waiters.length (some 8),
          .pthread_attr_destroy, .condlog 2 "%s: event checker started" [name] []] :=
  ⟨by decide, by decide, by decide, by decide, by decide,
    (start_waiter_thread_on_paired large_stack_platform all_succeed 0 (some 0) paired_state 0
      ⟨7, 5, "mpatha", some 0, some 0⟩ (by decide) (by decide)).1 ⟨8388608, true⟩ 8
      (by decide) (by decide) (by decide)⟩

/-- C9, the code at the failing input: `pthread_create` fails on the unpaired
device of `unpaired_state`.  The call returns 1 and the monitor reference is
absent, but `free_waiter` finds the new handle's device reference still set,
logs "waiter not cleared" and does not call `FREE`: the handle stays allocated
with its device reference naming the device.  When `MALLOC` returns `NULL`,
`alloc_waiter` writes through the null pointer and the call yields no result. -/
theorem start_create_failure_leaks_handle :
    start_waiter_thread large_stack_platform create_fails (some 0) (some 0) unpaired_state =
      some (1, leaked_state) ∧
    monitor_ref leaked_state 0 = none ∧
    device_ref leaked_state 0 = some 0 ∧
    free_count 0 (new_events unpaired_state leaked_state) = 0 ∧
    Event.condlog 3 "%s: waiter not cleared" ["mpatha"] [] ∈
      new_events unpaired_state leaked_state ∧
    start_waiter_thread large_stack_platform malloc_fails (some 0) (some 0) unpaired_state =
      none := by
  decide

end Waiter
